import Mathlib

/-!
Verification of the Tilt Live-Update Reconciler
(`internal/controllers/core/liveupdate/reconciler.go`).

Shallow embedding: Go `metav1.MicroTime` values become `Nat` (0 is the Go
zero time; `t.After(u)` is `u < t`, `t.Before(u)` is `t < u`, `t.IsZero()`
is `t = 0`).  Go maps become association lists with one entry per key.
Fallible `client.Get` calls become `Except GetError` values supplied as
inputs.  External collaborators invoked by the reconciler (the plan
builder `liveupdates.NewLiveUpdatePlan`, the `ContainerUpdater`
implementations, `build.BoilRuns`, `build.MissingLocalPaths`) are
parameters of the functions that call them, holding their observable
outcomes.
-/

namespace LiveUpdateModel

/-- Go `metav1.MicroTime`, with `0` as the zero time. -/
abbrev MicroTime := Nat

/-- `FileWatch.status.fileEvents[i]`: an event time plus the files seen. -/
structure FileEvent where
  time : MicroTime := 0
  seenFiles : List String := []
deriving DecidableEq, Repr, Inhabited

/-- `ImageMap.status`; `buildStartTime` is a nilable pointer in Go. -/
structure ImageMapStatus where
  buildStartTime : Option MicroTime := none
deriving DecidableEq, Repr, Inhabited

/-- `v1alpha1.ImageMap` (only the status is read by the reconciler). -/
structure ImageMap where
  status : ImageMapStatus := {}
deriving DecidableEq, Repr, Inhabited

/-- `v1alpha1.FileWatch` (only `status.fileEvents` is read). -/
structure FileWatch where
  fileEvents : List FileEvent := []
deriving DecidableEq, Repr, Inhabited

/-- Container state: `Running`, `Waiting{Reason}`, `Terminated` nilable
pointers from `v1alpha1.Container.State`. -/
structure ContainerState where
  running : Bool := false
  waitingReason : Option String := none
  terminated : Bool := false
deriving DecidableEq, Repr, Inhabited

/-- `v1alpha1.Container` as enumerated by KubernetesDiscovery. -/
structure KContainer where
  name : String := ""
  id : String := ""
  image : String := ""
  state : ContainerState := {}
deriving DecidableEq, Repr, Inhabited

/-- `v1alpha1.Pod` fields used by the reconciler. -/
structure Pod where
  name : String := ""
  ns : String := ""
  phase : String := ""
deriving DecidableEq, Repr, Inhabited

/-- `monitorContainerKey`: (containerID, podName, namespace). -/
structure MonitorContainerKey where
  containerID : String := ""
  podName : String := ""
  ns : String := ""
deriving DecidableEq, Repr, Inhabited

/-- `monitorContainerStatus`: per-container watermark and failure memo. -/
structure MonitorContainerStatus where
  lastFileTimeSynced : MicroTime := 0
  failedReason : String := ""
  failedMessage : String := ""
  failedLowWaterMark : MicroTime := 0
deriving DecidableEq, Repr, Inhabited

/-- `monitorSource`: per-FileWatch accumulated state. -/
structure MonitorSource where
  modTimeByPath : List (String × MicroTime) := []
  lastFileEvent : Option FileEvent := none
  lastImageStatus : Option ImageMapStatus := none
deriving DecidableEq, Repr, Inhabited

/-- `v1alpha1.LiveUpdateSource`: named FileWatch plus optional ImageMap. -/
structure LiveUpdateSource where
  fileWatch : String := ""
  imageMap : String := ""
deriving DecidableEq, Repr, Inhabited

/-- `v1alpha1.KubernetesSelector` (names of referenced objects). -/
structure KubernetesSelector where
  discoveryName : String := ""
  applyName : String := ""
  imageMapName : String := ""
deriving DecidableEq, Repr, Inhabited

/-- `v1alpha1.DockerComposeSelector`. -/
structure DockerComposeSelector where
  service : String := ""
deriving DecidableEq, Repr, Inhabited

/-- `v1alpha1.LiveUpdateSelector`: two nilable selector families. -/
structure LiveUpdateSelector where
  kubernetes : Option KubernetesSelector := none
  dockerCompose : Option DockerComposeSelector := none
deriving DecidableEq, Repr, Inhabited

/-- `v1alpha1.LiveUpdateStateFailed`. -/
structure LiveUpdateStateFailed where
  reason : String := ""
  message : String := ""
  lastTransitionTime : MicroTime := 0
deriving DecidableEq, Repr, Inhabited

/-- `v1alpha1.LiveUpdateContainerStateWaiting`. -/
structure LiveUpdateContainerStateWaiting where
  reason : String := ""
  message : String := ""
deriving DecidableEq, Repr, Inhabited

/-- `v1alpha1.LiveUpdateContainerStatus`. -/
structure LiveUpdateContainerStatus where
  containerName : String := ""
  containerID : String := ""
  podName : String := ""
  ns : String := ""
  lastFileTimeSynced : MicroTime := 0
  lastExecError : String := ""
  waiting : Option LiveUpdateContainerStateWaiting := none
deriving DecidableEq, Repr, Inhabited

/-- `v1alpha1.LiveUpdateStatus`. -/
structure LiveUpdateStatus where
  failed : Option LiveUpdateStateFailed := none
  containers : List LiveUpdateContainerStatus := []
deriving DecidableEq, Repr, Inhabited

/-- `liveupdates.Container`: the updater's view of a container. -/
structure Container where
  containerID : String := ""
  containerName : String := ""
  podID : String := ""
  ns : String := ""
deriving DecidableEq, Repr, Inhabited

/-- Display name used in log/error messages
(`liveupdates.Container.DisplayName`, defined outside src/; the exact
string is irrelevant to every claim, only its presence in a message). -/
def Container.displayName (c : Container) : String :=
  c.podID ++ "/" ++ c.containerName

/-- Outcome of one `ContainerUpdater.UpdateContainer` call, classified the
way `applyInternal` classifies the returned error
(`build.IsRunStepFailure(err)` vs any other non-nil error). -/
inductive UpdateResult where
  | success
  | runStepFailure (msg : String)
  | otherError (msg : String)
deriving DecidableEq, Repr

/-- Result of a `client.Get`; `notFound` models `apierrors.IsNotFound`. -/
inductive GetError where
  | notFound (msg : String)
  | other (msg : String)
deriving DecidableEq, Repr

/-- `v1alpha1.KubernetesApply.Status` (only deep-compared and stored). -/
structure KubernetesApplyStatus where
  lastApplyStartTime : MicroTime := 0
deriving DecidableEq, Repr, Inhabited

/-- A pod together with its containers, as reported by discovery. -/
structure KDPod where
  pod : Pod := {}
  containers : List KContainer := []
deriving DecidableEq, Repr, Inhabited

/-- `v1alpha1.KubernetesDiscoveryStatus`. -/
structure KubernetesDiscoveryStatus where
  pods : List KDPod := []
deriving DecidableEq, Repr, Inhabited

/-- `v1alpha1.KubernetesDiscovery`. -/
structure KubernetesDiscovery where
  status : KubernetesDiscoveryStatus := {}
deriving DecidableEq, Repr, Inhabited

/-- `v1alpha1.DockerComposeServiceStatus` (only deep-compared/stored). -/
structure DockerComposeServiceStatus where
  containerID : String := ""
  containerState : ContainerState := {}
deriving DecidableEq, Repr, Inhabited

/-- `v1alpha1.DockerComposeService`. -/
structure DockerComposeService where
  status : DockerComposeServiceStatus := {}
deriving DecidableEq, Repr, Inhabited

/-- The trigger-queue `v1alpha1.ConfigMap` (its `Data` map). -/
structure ConfigMap where
  data : List (String × String) := []
deriving DecidableEq, Repr, Inhabited

/-- In-memory `monitor` for one LiveUpdate name. -/
structure Monitor where
  sources : List (String × MonitorSource) := []
  lastKubernetesApplyStatus : Option KubernetesApplyStatus := none
  lastKubernetesDiscovery : Option KubernetesDiscovery := none
  lastImageMap : Option ImageMap := none
  lastDockerComposeService : Option DockerComposeService := none
  lastTriggerQueue : Option ConfigMap := none
  containers : List (MonitorContainerKey × MonitorContainerStatus) := []
  hasChangesToSync : Bool := false
deriving DecidableEq, Repr, Inhabited

/-! ### Association-list helpers (Go map operations) -/

/-- Go map read `m[k]`. -/
def alistLookup {α : Type} (m : List (String × α)) (k : String) : Option α :=
  match m with
  | [] => none
  | (k2, v) :: rest => if k2 = k then some v else alistLookup rest k

/-- Go map write `m[k] = v` (replaces, or appends a fresh key). -/
def alistInsert {α : Type} (m : List (String × α)) (k : String) (v : α) :
    List (String × α) :=
  match m with
  | [] => [(k, v)]
  | (k2, v2) :: rest =>
    if k2 = k then (k, v) :: rest else (k2, v2) :: alistInsert rest k v

/-- Map read keyed by `monitorContainerKey`. -/
def ckeyLookup (m : List (MonitorContainerKey × MonitorContainerStatus))
    (k : MonitorContainerKey) : Option MonitorContainerStatus :=
  match m with
  | [] => none
  | (k2, v) :: rest => if k2 = k then some v else ckeyLookup rest k

/-- Map write keyed by `monitorContainerKey`. -/
def ckeyInsert (m : List (MonitorContainerKey × MonitorContainerStatus))
    (k : MonitorContainerKey) (v : MonitorContainerStatus) :
    List (MonitorContainerKey × MonitorContainerStatus) :=
  match m with
  | [] => [(k, v)]
  | (k2, v2) :: rest =>
    if k2 = k then (k, v) :: rest else (k2, v2) :: ckeyInsert rest k v

/-! ### Failure-state construction (reconciler.go lines 859-879) -/

/-- `createFailedState(obj, reason, msg)`: build a new failed state; keep
the existing `LastTransitionTime` when the existing failure has the same
reason, otherwise stamp `apis.NowMicro()` (passed here as `now`). -/
def createFailedState (objStatusFailed : Option LiveUpdateStateFailed)
    (now : MicroTime) (reason msg : String) : LiveUpdateStateFailed :=
  let transitionTime : MicroTime :=
    match objStatusFailed with
    | some old => if old.reason = reason then old.lastTransitionTime else now
    | none => now
  { reason := reason, message := msg, lastTransitionTime := transitionTime }

/-- `adjustFailedStateTimestamps`: regenerate the transition time on a
newly computed status, when it is failed. -/
def adjustFailedStateTimestamps (objStatusFailed : Option LiveUpdateStateFailed)
    (now : MicroTime) (newStatus : LiveUpdateStatus) : LiveUpdateStatus :=
  match newStatus.failed with
  | none => newStatus
  | some f =>
    { newStatus with failed := some (createFailedState objStatusFailed now f.reason f.message) }

/-! ### Selector validation (reconciler.go lines 215-231) -/

/-- `ensureSelectorValid`: a Kubernetes selector needs a DiscoveryName, a
DockerCompose selector needs a Service, and at least one family must be
present.  The Kubernetes family is checked first and short-circuits. -/
def ensureSelectorValid (objStatusFailed : Option LiveUpdateStateFailed)
    (now : MicroTime) (selector : LiveUpdateSelector) :
    Option LiveUpdateStateFailed :=
  match selector.kubernetes with
  | some k =>
    if k.discoveryName = "" then
      some (createFailedState objStatusFailed now "Invalid"
        "Kubernetes selector requires DiscoveryName")
    else none
  | none =>
    match selector.dockerCompose with
    | some d =>
      if d.service = "" then
        some (createFailedState objStatusFailed now "Invalid"
          "DockerCompose selector requires Service")
      else none
    | none => some (createFailedState objStatusFailed now "Invalid" "No valid selector")

/-! ### File-event consumption (reconcileOneSource, lines 306-370) -/

/-- Inner loop over `event.SeenFiles`: upsert a file into `modTimeByPath`
iff absent or the stored time is strictly older (`existing.Time.Before`). -/
def consumeEvent (m : List (String × MicroTime)) (event : FileEvent) :
    List (String × MicroTime) :=
  event.seenFiles.foldl (fun m f =>
    match alistLookup m f with
    | none => alistInsert m f event.time
    | some existing =>
      if existing < event.time then alistInsert m f event.time else m) m

/-- Outer loop over `fw.Status.FileEvents`: an event is skipped iff
`newImageStatus.BuildStartTime != nil` and it is strictly after the event
time (`BuildStartTime.After(eventTime)`). -/
def consumeFileEvents (buildStartTime : Option MicroTime)
    (events : List FileEvent) (m : List (String × MicroTime)) :
    List (String × MicroTime) :=
  events.foldl (fun m event =>
    match buildStartTime with
    | some b => if event.time < b then m else consumeEvent m event
    | none => consumeEvent m event) m

/-- Core of `reconcileOneSource` once both objects were fetched and
`events` is known non-empty: image-status dedup, file-event dedup against
`lastFileEvent`, then consumption.  `imStatus` is the zero value when the
source names no ImageMap (`imn = ""`). -/
def processOneSource (imn : String) (imStatus : ImageMapStatus)
    (events : List FileEvent) (mSource : MonitorSource) :
    Bool × MonitorSource :=
  let imageChanged : Bool :=
    decide (imn ≠ "" ∧ mSource.lastImageStatus ≠ some imStatus)
  let mSource :=
    if imn ≠ "" then { mSource with lastImageStatus := some imStatus } else mSource
  let newLastFileEvent := events.getLastD default
  let fileWatchChanged : Bool :=
    decide (mSource.lastFileEvent ≠ some newLastFileEvent)
  let mSource := { mSource with lastFileEvent := some newLastFileEvent }
  let mSource :=
    if fileWatchChanged then
      { mSource with
        modTimeByPath := consumeFileEvents imStatus.buildStartTime events mSource.modTimeByPath }
    else mSource
  (fileWatchChanged || imageChanged, mSource)

/-- `reconcileOneSource`: fetch the FileWatch and ImageMap named by the
source (results supplied as `Except` values; a fetch only happens when the
name is non-empty), then consume the events. -/
def reconcileOneSource (source : LiveUpdateSource)
    (getFW : String → Except GetError FileWatch)
    (getIM : String → Except GetError ImageMap)
    (sources : List (String × MonitorSource)) :
    Except GetError (Bool × List (String × MonitorSource)) :=
  let fwn := source.fileWatch
  let imn := source.imageMap
  match (if fwn ≠ "" then getFW fwn else .ok {}) with
  | .error e => .error e
  | .ok fw =>
    match (if imn ≠ "" then getIM imn else .ok {}) with
    | .error e => .error e
    | .ok im =>
      if fw.fileEvents.length = 0 ∨ fwn = "" then .ok (false, sources)
      else
        let mSource := (alistLookup sources fwn).getD {}
        let res := processOneSource imn im.status fw.fileEvents mSource
        .ok (res.1, alistInsert sources fwn res.2)

/-- `reconcileSources`: loop over `spec.Sources`; errors abort, any
per-source change makes the whole refresh report a change. -/
def reconcileSources (specSources : List LiveUpdateSource)
    (getFW : String → Except GetError FileWatch)
    (getIM : String → Except GetError ImageMap)
    (sources : List (String × MonitorSource)) :
    Except GetError (Bool × List (String × MonitorSource)) :=
  match specSources with
  | [] => .ok (false, sources)
  | s :: rest =>
    match reconcileOneSource s getFW getIM sources with
    | .error e => .error e
    | .ok res1 =>
      match reconcileSources rest getFW getIM res1.2 with
      | .error e => .error e
      | .ok res2 => .ok (res1.1 || res2.1, res2.2)

/-! ### Other refreshes (reconciler.go lines 372-472) -/

/-- `reconcileTriggerQueue`: fetch the trigger-queue ConfigMap; a fetch
error goes through `client.IgnoreNotFound`, so NotFound is swallowed (no
change, no error, monitor untouched).  Otherwise dedup on `Data`. -/
def reconcileTriggerQueue (getTQ : Except GetError ConfigMap)
    (lastTriggerQueue : Option ConfigMap) :
    Except GetError (Bool × Option ConfigMap) :=
  match getTQ with
  | .error (.notFound _) => .ok (false, lastTriggerQueue)
  | .error e => .error e
  | .ok queue =>
    match lastTriggerQueue with
    | some last =>
      if last.data = queue.data then .ok (false, lastTriggerQueue)
      else .ok (true, some queue)
    | none => .ok (true, some queue)

/-- `reconcileKubernetesResource`: fetch apply/discovery/imageMap as named
by the selector, deep-compare against the stored snapshots, store the new
ones.  Returns true if anything differed. -/
def reconcileKubernetesResource (selector : Option KubernetesSelector)
    (getKA : String → Except GetError KubernetesApplyStatus)
    (getKD : String → Except GetError KubernetesDiscovery)
    (getIM : String → Except GetError ImageMap)
    (m : Monitor) : Except GetError (Bool × Monitor) :=
  match selector with
  | none => .ok (false, m)
  | some sel =>
    match ((if sel.applyName ≠ "" then
        match getKA sel.applyName with
        | .error e => .error e
        | .ok s => .ok (some s)
      else .ok none) : Except GetError (Option KubernetesApplyStatus)) with
    | .error e => .error e
    | .ok ka =>
      let changed1 : Bool :=
        match ka with
        | some s => decide (m.lastKubernetesApplyStatus ≠ some s)
        | none => false
      match getKD sel.discoveryName with
      | .error e => .error e
      | .ok kd =>
        match ((if sel.imageMapName ≠ "" then
            match getIM sel.imageMapName with
            | .error e => .error e
            | .ok i => .ok (some i)
          else .ok none) : Except GetError (Option ImageMap)) with
        | .error e => .error e
        | .ok im =>
          let changed2 : Bool :=
            match im with
            | some i => decide (m.lastImageMap ≠ some i)
            | none => false
          let changed3 : Bool :=
            decide (m.lastKubernetesDiscovery = none ∨
              (m.lastKubernetesDiscovery.map (fun d => d.status)) ≠ some kd.status)
          .ok (changed1 || changed2 || changed3,
            { m with
              lastKubernetesApplyStatus := ka
              lastKubernetesDiscovery := some kd
              lastImageMap := im })

/-- `reconcileDockerComposeService`: fetch the service, compare statuses,
store the snapshot. -/
def reconcileDockerComposeService (selector : Option DockerComposeSelector)
    (getDC : String → Except GetError DockerComposeService)
    (m : Monitor) : Except GetError (Bool × Monitor) :=
  match selector with
  | none => .ok (false, m)
  | some sel =>
    match getDC sel.service with
    | .error e => .error e
    | .ok dcs =>
      let changed : Bool :=
        decide (m.lastDockerComposeService = none ∨
          (m.lastDockerComposeService.map (fun d => d.status)) ≠ some dcs.status)
      .ok (changed, { m with lastDockerComposeService := some dcs })

/-! ### Garbage collection (reconciler.go lines 474-544) -/

/-- Per-source GC watermark: `ImageMap.BuildStartTime` when the source has
a stored image status carrying one, otherwise `res.bestStartTime()`. -/
def gcTimeFor (lastImageStatus : Option ImageMapStatus)
    (bestStartTime : MicroTime) : MicroTime :=
  match lastImageStatus with
  | some st =>
    match st.buildStartTime with
    | some b => b
    | none => bestStartTime
  | none => bestStartTime

/-- File-entry GC: delete entries with `gcTime.After(t)`,
i.e. keep an entry iff its time is `≥ gcTime`. -/
def gcFileMap (gcTime : MicroTime) (m : List (String × MicroTime)) :
    List (String × MicroTime) :=
  m.filter (fun ft => !(decide (ft.2 < gcTime)))

/-- Failure-memo GC: clear a memo whose non-zero `failedLowWaterMark` is
strictly before `gcTime`. -/
def clearOldFailure (gcTime : MicroTime) (c : MonitorContainerStatus) :
    MonitorContainerStatus :=
  if c.failedLowWaterMark ≠ 0 ∧ c.failedLowWaterMark < gcTime then
    { c with failedLowWaterMark := 0, failedReason := "", failedMessage := "" }
  else c

/-- `garbageCollectFileChanges`: per spec source, compute the GC watermark
and, when it is non-zero, prune old file entries and clear old failure
memos. -/
def garbageCollectFileChanges (specSources : List LiveUpdateSource)
    (bestStartTime : MicroTime)
    (sources : List (String × MonitorSource))
    (containers : List (MonitorContainerKey × MonitorContainerStatus)) :
    List (String × MonitorSource) ×
      List (MonitorContainerKey × MonitorContainerStatus) :=
  specSources.foldl (fun acc source =>
    let (srcs, conts) := acc
    match alistLookup srcs source.fileWatch with
    | none => acc
    | some mSource =>
      let gcTime := gcTimeFor mSource.lastImageStatus bestStartTime
      if gcTime ≠ 0 then
        (alistInsert srcs source.fileWatch
          { mSource with modTimeByPath := gcFileMap gcTime mSource.modTimeByPath },
         conts.map (fun kc => (kc.1, clearOldFailure gcTime kc.2)))
      else acc) (sources, containers)

/-- `garbageCollectMonitorContainers`: drop container-monitor entries whose
container IDs are no longer selected (`selectedIDs` are the non-empty IDs
the resource currently enumerates). -/
def garbageCollectMonitorContainers (selectedIDs : List String)
    (containers : List (MonitorContainerKey × MonitorContainerStatus)) :
    List (MonitorContainerKey × MonitorContainerStatus) :=
  containers.filter (fun kc => selectedIDs.contains kc.1.containerID)

/-! ### applyInternal (reconciler.go lines 881-996) -/

/-- Loop body of `applyInternal` over `input.Containers`, threading the
`lastExecErrorStatus` memo and the accumulated container statuses.
`update` holds the outcome of each `cu.UpdateContainer` call. -/
def applyGo (update : Container → UpdateResult)
    (lastFileTimeSynced now : MicroTime) :
    List Container → Option LiveUpdateContainerStatus →
      List LiveUpdateContainerStatus → LiveUpdateStatus
  | [], _, acc => { failed := none, containers := acc }
  | cInfo :: rest, lastExecErrorStatus, acc =>
    let lfts := if lastFileTimeSynced = 0 then now else lastFileTimeSynced
    let cStatus : LiveUpdateContainerStatus :=
      { containerName := cInfo.containerName
        containerID := cInfo.containerID
        podName := cInfo.podID
        ns := cInfo.ns
        lastFileTimeSynced := lfts }
    match update cInfo with
    | .runStepFailure msg =>
      let cStatus := { cStatus with lastExecError := msg }
      applyGo update lastFileTimeSynced now rest (some cStatus) (acc ++ [cStatus])
    | .otherError msg =>
      let m :=
        if cStatus.podName ≠ "" then
          "Updating pod " ++ cStatus.podName ++ ": " ++ msg
        else
          "Updating container " ++ cInfo.displayName ++ ": " ++ msg
      { failed := some { reason := "UpdateFailed", message := m }, containers := acc }
    | .success =>
      match lastExecErrorStatus with
      | some lee =>
        { failed := some
            { reason := "PodsInconsistent"
              message := "Pods in inconsistent state. Success: pod " ++ cStatus.podName ++
                ". Failure: pod " ++ lee.podName ++ ". Error: " ++ lee.lastExecError }
          containers := acc }
      | none => applyGo update lastFileTimeSynced now rest lastExecErrorStatus (acc ++ [cStatus])

/-- `applyInternal`: run `build.BoilRuns` and `build.MissingLocalPaths`
(both outside src/, supplied as outcomes; a failure of either is an
`Invalid` failed state), then update each container in order. -/
def applyInternal (boilRuns mapLocalPaths : Except String Unit)
    (update : Container → UpdateResult)
    (lastFileTimeSynced now : MicroTime)
    (containers : List Container) : LiveUpdateStatus :=
  match boilRuns with
  | .error e =>
    { failed := some { reason := "Invalid", message := "Building exec: " ++ e } }
  | .ok _ =>
    match mapLocalPaths with
    | .error e =>
      { failed := some { reason := "Invalid", message := "Mapping paths: " ++ e } }
    | .ok _ => applyGo update lastFileTimeSynced now containers none []

/-! ### Plan creation (reconciler.go lines 832-857) -/

/-- `liveupdates.LiveUpdatePlan` (the fields the reconciler reads). -/
structure LiveUpdatePlan where
  syncPaths : List String := []
  noMatchPaths : List String := []
  stopPaths : List String := []
deriving DecidableEq, Repr, Inhabited

/-- `createLiveUpdatePlan`: wrap `liveupdates.NewLiveUpdatePlan` (outside
src/, its outcome supplied as `planned`) and classify: a planner error, a
non-empty `NoMatchPaths`, or a non-empty `StopPaths` each yield an
`UpdateStopped` failed state (messages abbreviated; only the reason is
load-bearing). -/
def createLiveUpdatePlan (planned : Except String LiveUpdatePlan) :
    LiveUpdatePlan × Option LiveUpdateStateFailed :=
  match planned with
  | .error e =>
    ({}, some { reason := "UpdateStopped", message := "No update plan: " ++ e })
  | .ok plan =>
    if plan.noMatchPaths ≠ [] then
      (plan,
       some { reason := "UpdateStopped"
              message := "Found file(s) not matching any sync" })
    else if plan.stopPaths ≠ [] then
      (plan,
       some { reason := "UpdateStopped"
              message := "Detected change to stop file " ++ plan.stopPaths.headD "" })
    else (plan, none)

/-! ### The maybeSync container pass (reconciler.go lines 611-830) -/

/-- Ordered insertion into a sorted list of paths. -/
def insertSorted (x : String) : List String → List String
  | [] => [x]
  | y :: ys => if x < y then x :: y :: ys else y :: insertSorted x ys

/-- Insertion sort over paths. -/
def sortStrings : List String → List String
  | [] => []
  | x :: xs => insertSorted x (sortStrings xs)

/-- `sliceutils.DedupedAndSorted`.  Modelled from the spec: the helper is
outside src/; the spec says the changed files are deduplicated and sorted
so they are deterministic.  Emptiness and membership are all the
reconciler depends on. -/
def dedupedAndSorted (l : List String) : List String :=
  (sortStrings l).dedup

/-- One step of the changed-file scan: a file enters `filesChanged` iff its
mod time is strictly after the high-water mark; the new low mark is the
least contributing time, the new high mark the greatest (seeded with the
high-water mark itself). -/
def collectStep (highWaterMark : MicroTime)
    (acc : List String × MicroTime × MicroTime) (ft : String × MicroTime) :
    List String × MicroTime × MicroTime :=
  let (files, newLow, newHigh) := acc
  if highWaterMark < ft.2 then
    (files ++ [ft.1],
     if newLow = 0 ∨ ft.2 < newLow then ft.2 else newLow,
     if newHigh < ft.2 then ft.2 else newHigh)
  else acc

/-- The changed-file scan over all monitor sources (lines 680-698). -/
def collectFilesChanged (sources : List (String × MonitorSource))
    (highWaterMark : MicroTime) : List String × MicroTime × MicroTime :=
  sources.foldl
    (fun acc s => s.2.modTimeByPath.foldl (collectStep highWaterMark) acc)
    ([], 0, highWaterMark)

/-- Observable events of one reconcile pass: the BuildStarted dispatch, a
`ContainerUpdater` invocation, the BuildCompleted dispatch. -/
inductive BuildEvent where
  | buildStarted (filesChanged : List String)
  | updaterCall (containerID : String)
  | buildCompleted (hasError : Bool)
deriving DecidableEq, Repr

/-- Parameters of one `maybeSync` pass that are fixed across containers. -/
structure SyncParams where
  /-- `lu.Status.Failed`, read by `createFailedState`. -/
  objStatusFailed : Option LiveUpdateStateFailed := none
  /-- `apis.NowMicro()`. -/
  now : MicroTime := 0
  /-- `r.startedTime`, the reconciler's process-start time. -/
  startedTime : MicroTime := 0
  /-- Manual update-mode and not in the trigger queue (lines 622-630). -/
  isWaitingOnTrigger : Bool := false
  /-- Outcome of `liveupdates.NewLiveUpdatePlan(spec, filesChanged)`. -/
  planner : List String → Except String LiveUpdatePlan := fun _ => .ok {}
  /-- Outcome of `build.BoilRuns`. -/
  boilRuns : Except String Unit := .ok ()
  /-- Outcome of `build.MissingLocalPaths`. -/
  mapLocalPaths : Except String Unit := .ok ()
  /-- Outcome of each `ContainerUpdater.UpdateContainer` call. -/
  update : Container → UpdateResult := fun _ => .success
  /-- `monitor.sources` after garbage collection. -/
  sources : List (String × MonitorSource) := []

/-- Mutable state threaded through the `visitSelectedContainers` loop. -/
structure SyncState where
  status : LiveUpdateStatus := {}
  containers : List (MonitorContainerKey × MonitorContainerStatus) := []
  updateEventDispatched : Bool := false
  terminatedContainerPodName : String := ""
  hasAnyFilesToSync : Bool := false
  trace : List BuildEvent := []
  /-- The visit callback returned true (early exit). -/
  stopped : Bool := false
deriving Repr

/-- The watermark a container starts from (lines 674-678): its stored
non-zero `lastFileTimeSynced`, else the reconciler's process-start
time. -/
def containerHighWaterMark (startedTime : MicroTime)
    (containers : List (MonitorContainerKey × MonitorContainerStatus))
    (cKey : MonitorContainerKey) : MicroTime :=
  let cStatusOpt := ckeyLookup containers cKey
  let cStatus := cStatusOpt.getD {}
  if cStatusOpt.isSome ∧ cStatus.lastFileTimeSynced ≠ 0 then
    cStatus.lastFileTimeSynced
  else startedTime

/-- Body of the per-container visit in `maybeSync` (lines 661-807):
compute the changed files against the container's watermark, skip
completed pods/containers (remembering the first such pod name), classify
waiting states, run the planner, and either record a failure, record a
waiting/no-op container status, or dispatch BuildStarted (once per pass)
and apply the plan via `applyInternal` on the single container. -/
def visitOne (p : SyncParams) (st : SyncState) (pod : Pod) (cInfo : KContainer) :
    SyncState :=
  let c : Container :=
    { containerID := cInfo.id, containerName := cInfo.name
      podID := pod.name, ns := pod.ns }
  let cKey : MonitorContainerKey :=
    { containerID := cInfo.id, podName := pod.name, ns := pod.ns }
  let cStatus := (ckeyLookup st.containers cKey).getD {}
  let highWaterMark := containerHighWaterMark p.startedTime st.containers cKey
  let wm := collectFilesChanged p.sources highWaterMark
  let newLowWaterMark := wm.2.1
  let newHighWaterMark := wm.2.2
  let filesChanged := dedupedAndSorted wm.1
  let st :=
    { st with hasAnyFilesToSync := st.hasAnyFilesToSync || decide (filesChanged ≠ []) }
  if pod.phase = "Succeeded" ∨ pod.phase = "Failed" ∨ cInfo.state.terminated then
    { st with terminatedContainerPodName :=
        if st.terminatedContainerPodName = "" then pod.name
        else st.terminatedContainerPodName }
  else
    let waiting : Option LiveUpdateContainerStateWaiting :=
      if ¬cInfo.state.running ∨ cInfo.id = "" then
        some { reason := "ContainerWaiting", message := "Waiting for container to start" }
      else if p.isWaitingOnTrigger then
        some { reason := "Trigger", message := "Only updates on manual trigger" }
      else none
    let recordOnly : LiveUpdateStatus :=
      { containers := [{ containerName := cInfo.name
                         containerID := cInfo.id
                         podName := pod.name
                         ns := pod.ns
                         lastFileTimeSynced := cStatus.lastFileTimeSynced
                         waiting := waiting }] }
    let planned := createLiveUpdatePlan (p.planner filesChanged)
    let plan := planned.1
    let planFailed := planned.2
    -- (one-update status, filesApplied, updateEventDispatched, new events)
    let branch : LiveUpdateStatus × Bool × Bool × List BuildEvent :=
      match planFailed with
      | some f => ({ failed := some f }, false, st.updateEventDispatched, [])
      | none =>
        if plan.syncPaths = [] then
          (recordOnly, false, st.updateEventDispatched, [])
        else if cInfo.state.waitingReason = some "CrashLoopBackOff" then
          ({ failed := some (createFailedState p.objStatusFailed p.now "CrashLoopBackOff"
               ("Cannot live update because container crashing. Pod: " ++ pod.name)) },
           false, st.updateEventDispatched, [])
        else if waiting.isSome then
          (recordOnly, false, st.updateEventDispatched, [])
        else
          let startEvents : List BuildEvent :=
            if st.updateEventDispatched then [] else [.buildStarted filesChanged]
          let oneStatus := applyInternal p.boilRuns p.mapLocalPaths p.update
            newHighWaterMark p.now [c]
          (oneStatus, true, true, startEvents ++ [.updaterCall cInfo.id])
    let oneUpdateStatus := adjustFailedStateTimestamps p.objStatusFailed p.now branch.1
    let filesApplied := branch.2.1
    let cStatus2 :=
      match oneUpdateStatus.failed with
      | some f =>
        { cStatus with failedReason := f.reason, failedMessage := f.message
                       failedLowWaterMark := newLowWaterMark }
      | none =>
        if filesApplied then { cStatus with lastFileTimeSynced := newHighWaterMark }
        else cStatus
    let containers2 := ckeyInsert st.containers cKey cStatus2
    match oneUpdateStatus.failed with
    | some f =>
      { st with
        status := { failed := some f, containers := [] }
        containers := containers2
        updateEventDispatched := branch.2.2.1
        trace := st.trace ++ branch.2.2.2
        stopped := true }
    | none =>
      { st with
        status := { st.status with
          containers := st.status.containers ++ oneUpdateStatus.containers }
        containers := containers2
        updateEventDispatched := branch.2.2.1
        trace := st.trace ++ branch.2.2.2 }

/-- `visitSelectedContainers` over the enumerated (pod, container) pairs,
with the callback's early-exit semantics. -/
def syncLoop (p : SyncParams) :
    List (Pod × KContainer) → SyncState → SyncState
  | [], st => st
  | (pod, c) :: rest, st =>
    let st2 := visitOne p st pod c
    if st2.stopped then st2 else syncLoop p rest st2

/-- Pre-check pass (lines 635-650): the first selected container carrying
a sticky failure memo turns the whole pass into that failure. -/
def checkUnrecoverable (objStatusFailed : Option LiveUpdateStateFailed)
    (now : MicroTime)
    (containers : List (MonitorContainerKey × MonitorContainerStatus)) :
    List (Pod × KContainer) → Option LiveUpdateStateFailed
  | [] => none
  | (pod, c) :: rest =>
    let cKey : MonitorContainerKey :=
      { containerID := c.id, podName := pod.name, ns := pod.ns }
    match ckeyLookup containers cKey with
    | some cs =>
      if cs.failedReason ≠ "" then
        some (createFailedState objStatusFailed now cs.failedReason cs.failedMessage)
      else checkUnrecoverable objStatusFailed now containers rest
    | none => checkUnrecoverable objStatusFailed now containers rest

/-- Terminated-only promotion (lines 819-823). -/
def promoteTerminated (objStatusFailed : Option LiveUpdateStateFailed)
    (now : MicroTime) (status : LiveUpdateStatus)
    (terminatedContainerPodName : String) (hasAnyFilesToSync : Bool) :
    LiveUpdateStatus :=
  if status.failed = none ∧ terminatedContainerPodName ≠ "" ∧
      hasAnyFilesToSync ∧ status.containers = [] then
    { status with failed := some (createFailedState objStatusFailed now "Terminated"
        ("Container for live update is stopped. Pod name: " ++ terminatedContainerPodName)) }
  else status

/-- Result of one `maybeSync` pass: the computed status, the updated
container monitors, and the observable build/updater events in order. -/
structure MaybeSyncResult where
  status : LiveUpdateStatus := {}
  sources : List (String × MonitorSource) := []
  containers : List (MonitorContainerKey × MonitorContainerStatus) := []
  trace : List BuildEvent := []
deriving Repr

/-- Error carried by the BuildCompleted dispatch (lines 566-583): the
failure message when failed, else the first non-empty `LastExecError`. -/
def completeBuildHasError (status : LiveUpdateStatus) : Bool :=
  status.failed.isSome || status.containers.any (fun c => c.lastExecError ≠ "")

/-- Tail of a `maybeSync` pass (lines 809-829): terminated-only promotion
and the conditional BuildCompleted dispatch. -/
def maybeSyncFinish (objStatusFailed : Option LiveUpdateStateFailed)
    (now : MicroTime) (st : SyncState) : LiveUpdateStatus × List BuildEvent :=
  let status := promoteTerminated objStatusFailed now st.status
    st.terminatedContainerPodName st.hasAnyFilesToSync
  let trace :=
    if st.updateEventDispatched then
      st.trace ++ [.buildCompleted (completeBuildHasError status)]
    else st.trace
  (status, trace)

/-- `maybeSync` from garbage collection onward (lines 632-829): GC file
changes and failure memos, GC unselected container monitors, pre-check for
sticky failures, walk the selected containers, promote terminated-only
passes, and dispatch BuildCompleted iff BuildStarted was dispatched. -/
def maybeSync (specSources : List LiveUpdateSource) (bestStartTime : MicroTime)
    (p : SyncParams) (selected : List (Pod × KContainer))
    (monitorContainers : List (MonitorContainerKey × MonitorContainerStatus)) :
    MaybeSyncResult :=
  let gc := garbageCollectFileChanges specSources bestStartTime p.sources monitorContainers
  let sources := gc.1
  let containers :=
    garbageCollectMonitorContainers
      ((selected.map (fun pc => pc.2.id)).filter (fun i => i ≠ "")) gc.2
  let p := { p with sources := sources }
  match checkUnrecoverable p.objStatusFailed p.now containers selected with
  | some f =>
    { status := { failed := some f }, sources := sources, containers := containers }
  | none =>
    let st := syncLoop p selected { containers := containers }
    let fin := maybeSyncFinish p.objStatusFailed p.now st
    { status := fin.1, sources := sources, containers := st.containers, trace := fin.2 }

/-! ### The Reconcile pipeline (reconciler.go lines 116-208) -/

/-- How one reconcile ends, observably. -/
inductive ReconcileResult where
  /-- `handleFailure` was invoked with this failed state (selector
  validation failure or a NotFound on a referenced object). -/
  | failure (f : LiveUpdateStateFailed)
  /-- A transient (non-NotFound) error bubbled out; the workqueue
  requeues. -/
  | requeue (e : GetError)
  /-- The pass completed: the final monitor, the status computed by
  `maybeSync` (none when there was nothing to sync), the observable
  events. -/
  | done (m : Monitor) (status : Option LiveUpdateStatus) (trace : List BuildEvent)
deriving Repr

/-- The refresh phase of `Reconcile` (lines 151-182): refresh file-watch
sources, the Kubernetes objects, the DockerCompose service, then the
trigger queue; a NotFound from the first three becomes an
`ObjectNotFound` failed state, any other error is returned.  On success
`hasChangesToSync` absorbs the four change flags.  (On the error paths
partial monitor mutation is dropped; no claim observes it.) -/
def reconcileRefresh (specSources : List LiveUpdateSource)
    (selector : LiveUpdateSelector)
    (objStatusFailed : Option LiveUpdateStateFailed) (now : MicroTime)
    (getFW : String → Except GetError FileWatch)
    (getIM : String → Except GetError ImageMap)
    (getKA : String → Except GetError KubernetesApplyStatus)
    (getKD : String → Except GetError KubernetesDiscovery)
    (getDC : String → Except GetError DockerComposeService)
    (getTQ : Except GetError ConfigMap)
    (m : Monitor) : ReconcileResult ⊕ Monitor :=
  match reconcileSources specSources getFW getIM m.sources with
  | .error (.notFound msg) =>
    .inl (.failure (createFailedState objStatusFailed now "ObjectNotFound" msg))
  | .error e => .inl (.requeue e)
  | .ok (hasFileChanges, sources) =>
    let m := { m with sources := sources }
    match reconcileKubernetesResource selector.kubernetes getKA getKD getIM m with
    | .error (.notFound msg) =>
      .inl (.failure (createFailedState objStatusFailed now "ObjectNotFound" msg))
    | .error e => .inl (.requeue e)
    | .ok (hasKubernetesChanges, m) =>
      match reconcileDockerComposeService selector.dockerCompose getDC m with
      | .error (.notFound msg) =>
        .inl (.failure (createFailedState objStatusFailed now "ObjectNotFound" msg))
      | .error e => .inl (.requeue e)
      | .ok (hasDockerComposeChanges, m) =>
        match reconcileTriggerQueue getTQ m.lastTriggerQueue with
        | .error e => .inl (.requeue e)
        | .ok (hasTriggerQueueChanges, tq) =>
          let m := { m with lastTriggerQueue := tq }
          .inr { m with hasChangesToSync :=
            m.hasChangesToSync || hasFileChanges || hasKubernetesChanges ||
              hasDockerComposeChanges || hasTriggerQueueChanges }

/-- `Reconcile` from selector validation to the end (lines 145-207):
validate, refresh, and when `hasChangesToSync` run `maybeSync` (whose
GC'd sources and updated container monitors are written back); the flag is
cleared at the end of the pass either way.  `selected` enumerates the
(pod, container) pairs the resource adapter would visit and
`bestStartTime` its GC fallback watermark; both belong to the adapter,
which lives outside src/. -/
def reconcileCore (specSources : List LiveUpdateSource)
    (selector : LiveUpdateSelector)
    (objStatusFailed : Option LiveUpdateStateFailed) (now : MicroTime)
    (startedTime : MicroTime) (isWaitingOnTrigger : Bool)
    (planner : List String → Except String LiveUpdatePlan)
    (boilRuns mapLocalPaths : Except String Unit)
    (update : Container → UpdateResult)
    (getFW : String → Except GetError FileWatch)
    (getIM : String → Except GetError ImageMap)
    (getKA : String → Except GetError KubernetesApplyStatus)
    (getKD : String → Except GetError KubernetesDiscovery)
    (getDC : String → Except GetError DockerComposeService)
    (getTQ : Except GetError ConfigMap)
    (bestStartTime : MicroTime) (selected : List (Pod × KContainer))
    (m : Monitor) : ReconcileResult :=
  match ensureSelectorValid objStatusFailed now selector with
  | some f => .failure f
  | none =>
    match reconcileRefresh specSources selector objStatusFailed now
        getFW getIM getKA getKD getDC getTQ m with
    | .inl r => r
    | .inr m2 =>
      if m2.hasChangesToSync then
        let p : SyncParams :=
          { objStatusFailed := objStatusFailed, now := now
            startedTime := startedTime, isWaitingOnTrigger := isWaitingOnTrigger
            planner := planner, boilRuns := boilRuns
            mapLocalPaths := mapLocalPaths, update := update
            sources := m2.sources }
        let res := maybeSync specSources bestStartTime p selected m2.containers
        .done { m2 with hasChangesToSync := false
                        sources := res.sources, containers := res.containers }
          (some res.status) res.trace
      else .done { m2 with hasChangesToSync := false } none []

/-! ### Event-trace classifiers -/

/-- Is this event the BuildStarted dispatch? -/
def BuildEvent.isStarted : BuildEvent → Bool
  | .buildStarted _ => true
  | _ => false

/-- Is this event a ContainerUpdater invocation? -/
def BuildEvent.isCall : BuildEvent → Bool
  | .updaterCall _ => true
  | _ => false

/-- Is this event the BuildCompleted dispatch? -/
def BuildEvent.isCompleted : BuildEvent → Bool
  | .buildCompleted _ => true
  | _ => false

/-- Shape of the event trace while the container pass runs: nothing until
BuildStarted is dispatched; afterwards one BuildStarted followed only by
updater calls. -/
def traceShape : Bool → List BuildEvent → Prop
  | false, tr => tr = []
  | true, tr => ∃ fs calls, tr = BuildEvent.buildStarted fs :: calls ∧
      ∀ x ∈ calls, x.isCall = true

/-- The failure reason a reconcile outcome reports, if any. -/
def ReconcileResult.failureReason : ReconcileResult → Option String
  | .failure f => some f.reason
  | .requeue _ => none
  | .done _ status _ => (status.bind (fun s => s.failed)).map (fun f => f.reason)

/-! ### Replay predicates (claim C7) -/

/-- The FileWatch/ImageMap inputs of one spec source are deep-equal to
what the monitor already recorded: the referenced objects fetch cleanly,
and when there are file events the stored `lastFileEvent` equals the
newest event and (for a named ImageMap) the stored `lastImageStatus`
equals the fetched status. -/
def sourceReplayed (getFW : String → Except GetError FileWatch)
    (getIM : String → Except GetError ImageMap)
    (sources : List (String × MonitorSource)) (s : LiveUpdateSource) : Prop :=
  if s.fileWatch = "" then
    s.imageMap ≠ "" → ∃ im, getIM s.imageMap = .ok im
  else
    ∃ fw, getFW s.fileWatch = .ok fw ∧
      ∃ im, (s.imageMap ≠ "" → getIM s.imageMap = .ok im) ∧
        (s.imageMap = "" → im = {}) ∧
        (fw.fileEvents ≠ [] →
          ∃ ms, alistLookup sources s.fileWatch = some ms ∧
            ms.lastFileEvent = some (fw.fileEvents.getLastD default) ∧
            (s.imageMap ≠ "" → ms.lastImageStatus = some im.status))

/-- The Kubernetes objects named by the selector are deep-equal to the
monitor's stored snapshots. -/
def kubernetesReplayed (getKA : String → Except GetError KubernetesApplyStatus)
    (getKD : String → Except GetError KubernetesDiscovery)
    (getIM : String → Except GetError ImageMap)
    (sel : Option KubernetesSelector) (m : Monitor) : Prop :=
  match sel with
  | none => True
  | some sel =>
    ∃ kd, getKD sel.discoveryName = .ok kd ∧
      m.lastKubernetesDiscovery = some kd ∧
      (sel.applyName ≠ "" →
        ∃ ka, getKA sel.applyName = .ok ka ∧ m.lastKubernetesApplyStatus = some ka) ∧
      (sel.applyName = "" → m.lastKubernetesApplyStatus = none) ∧
      (sel.imageMapName ≠ "" →
        ∃ im, getIM sel.imageMapName = .ok im ∧ m.lastImageMap = some im) ∧
      (sel.imageMapName = "" → m.lastImageMap = none)

/-- The DockerCompose service is deep-equal to the stored snapshot. -/
def dockerComposeReplayed (getDC : String → Except GetError DockerComposeService)
    (sel : Option DockerComposeSelector) (m : Monitor) : Prop :=
  match sel with
  | none => True
  | some sel => ∃ dcs, getDC sel.service = .ok dcs ∧ m.lastDockerComposeService = some dcs

/-- The trigger-queue ConfigMap data is deep-equal to the stored
snapshot. -/
def triggerQueueReplayed (getTQ : Except GetError ConfigMap)
    (lastTriggerQueue : Option ConfigMap) : Prop :=
  ∃ q, getTQ = .ok q ∧ ∃ last, lastTriggerQueue = some last ∧ last.data = q.data

/-! ### Concrete scenario inputs (counterexamples and witnesses) -/

/-- One watched source whose only file "f" changed at time 10. -/
def exSources : List (String × MonitorSource) :=
  [("fw", { modTimeByPath := [("f", 10)] })]

/-- A Running pod. -/
def exPodRunning : Pod := { name := "p", ns := "default", phase := "Running" }

/-- A pod that completed (`phase = Succeeded`). -/
def exPodSucceeded : Pod := { name := "pt", ns := "default", phase := "Succeeded" }

/-- A running container with ID "c1". -/
def exC1 : KContainer := { name := "main", id := "c1", state := { running := true } }

/-- A running container with ID "c2". -/
def exC2 : KContainer := { name := "main", id := "c2", state := { running := true } }

/-- A terminated container. -/
def exCTerminated : KContainer :=
  { name := "main", id := "ct", state := { terminated := true } }

/-- A container that has not started yet (not Running). -/
def exCWaiting : KContainer :=
  { name := "main", id := "cw", state := { running := false } }

/-- A planner that syncs every changed file. -/
def exPlanAll : List String → Except String LiveUpdatePlan :=
  fun fs => .ok { syncPaths := fs }

/-- Sync parameters for the two-container RunStepFailure pass (claim C5):
the updater fails container "c1" with a run-step failure and succeeds on
everything else. -/
def exParamsC5 : SyncParams :=
  { startedTime := 1
    planner := exPlanAll
    update := fun c => if c.containerID = "c1" then .runStepFailure "boom" else .success
    sources := exSources }

/-- Sync parameters for the terminated-plus-waiting pass (claim C6): the
updater always succeeds; files are pending. -/
def exParamsC6 : SyncParams :=
  { startedTime := 1, planner := exPlanAll, sources := exSources }

/-- Replay scenario (claim C7): the one file event already recorded. -/
def exReplayFE : FileEvent := { time := 3, seenFiles := ["a"] }

/-- Replay scenario: the image status already recorded. -/
def exReplayIMS : ImageMapStatus := { buildStartTime := some 2 }

/-- Replay scenario: the spec source. -/
def exReplaySource : LiveUpdateSource := { fileWatch := "fw", imageMap := "im" }

/-- Replay scenario: the monitor source after the first reconcile. -/
def exReplayMS : MonitorSource :=
  { modTimeByPath := [("a", 3)], lastFileEvent := some exReplayFE
    lastImageStatus := some exReplayIMS }

/-- Replay scenario: a Kubernetes selector. -/
def exReplaySelector : LiveUpdateSelector :=
  { kubernetes := some { discoveryName := "d" } }

/-- Replay scenario: the monitor after the first reconcile. -/
def exReplayMonitor : Monitor :=
  { sources := [("fw", exReplayMS)]
    lastKubernetesDiscovery := some {}
    lastTriggerQueue := some { data := [("mn", "1")] } }

/-- Replay scenario: the FileWatch fetch (same events again). -/
def exReplayGetFW : String → Except GetError FileWatch :=
  fun _ => .ok { fileEvents := [exReplayFE] }

/-- Replay scenario: the ImageMap fetch (same status again). -/
def exReplayGetIM : String → Except GetError ImageMap :=
  fun _ => .ok { status := exReplayIMS }

/-- Replay scenario: the trigger-queue fetch (same data again). -/
def exReplayGetTQ : Except GetError ConfigMap := .ok { data := [("mn", "1")] }

end LiveUpdateModel

namespace LiveUpdateModel

/-! ### Shared lemmas -/

/-- Reading back the key just written into a string-keyed Go map. -/
theorem alistLookup_insert_self {α : Type} (m : List (String × α)) (k : String) (v : α) :
    alistLookup (alistInsert m k v) k = some v := by
  induction m with
  | nil => simp [alistInsert, alistLookup]
  | cons hd tl ih =>
    by_cases h : hd.1 = k
    · simp [alistInsert, alistLookup, h]
    · simp [alistInsert, alistLookup, h, ih]

/-- Writing back the value a key already holds leaves the map unchanged. -/
theorem alistInsert_self {α : Type} (m : List (String × α)) (k : String) (v : α)
    (h : alistLookup m k = some v) : alistInsert m k v = m := by
  induction m with
  | nil => simp [alistLookup] at h
  | cons hd tl ih =>
    obtain ⟨a, b⟩ := hd
    by_cases hk : a = k
    · simp [alistLookup, hk] at h
      simp [alistInsert, hk, h]
    · simp [alistLookup, hk] at h
      simp [alistInsert, hk, ih h]

/-- Reading back the key just written into a container-keyed Go map. -/
theorem ckeyLookup_insert_self (m : List (MonitorContainerKey × MonitorContainerStatus))
    (k : MonitorContainerKey) (v : MonitorContainerStatus) :
    ckeyLookup (ckeyInsert m k v) k = some v := by
  induction m with
  | nil => simp [ckeyInsert, ckeyLookup]
  | cons hd tl ih =>
    by_cases h : hd.1 = k
    · simp [ckeyInsert, ckeyLookup, h]
    · simp [ckeyInsert, ckeyLookup, h, ih]

/-! ### Claim C2 — selector validation -/

/-- C2 counterexample: a spec whose selector has *both* families set (with
a non-empty Kubernetes DiscoveryName) passes `ensureSelectorValid`, and a
full reconcile over it records no failure at all — contradicting the
claim that every both-families spec fails `Invalid`. -/
theorem liveupdate_C2_counterexample :
    ensureSelectorValid none 7
      { kubernetes := some { discoveryName := "d" }
        dockerCompose := some { service := "s" } } = none ∧
    (reconcileCore []
      { kubernetes := some { discoveryName := "d" }
        dockerCompose := some { service := "s" } }
      none 7 0 false exPlanAll (.ok ()) (.ok ()) (fun _ => .success)
      (fun _ => .ok {}) (fun _ => .ok {}) (fun _ => .ok {}) (fun _ => .ok {})
      (fun _ => .ok {}) (.ok {}) 0 [] {}).failureReason = none :=
  ⟨by decide, by decide⟩

/-- C2 (amended): a spec whose selector has *neither* family fails
validation with reason `Invalid`; when both families are set the
Kubernetes family takes precedence — validation succeeds if its
DiscoveryName is non-empty and fails `Invalid` if it is empty. -/
theorem liveupdate_C2_selector_validation
    (objF : Option LiveUpdateStateFailed) (now : MicroTime)
    (k : KubernetesSelector) (d : DockerComposeSelector) :
    (ensureSelectorValid objF now { kubernetes := none, dockerCompose := none } =
      some (createFailedState objF now "Invalid" "No valid selector")) ∧
    (k.discoveryName ≠ "" →
      ensureSelectorValid objF now
        { kubernetes := some k, dockerCompose := some d } = none) ∧
    (k.discoveryName = "" →
      (ensureSelectorValid objF now
        { kubernetes := some k, dockerCompose := some d }).map
          (fun f => f.reason) = some "Invalid") := by
  refine ⟨rfl, fun h => ?_, fun h => ?_⟩ <;>
    simp [ensureSelectorValid, h, createFailedState]

/-- Witness for C2 at a concrete both-families selector. -/
theorem liveupdate_C2_selector_validation_witness :
    ("d" : String) ≠ "" ∧
    ensureSelectorValid none 7
      { kubernetes := some { discoveryName := "d" }
        dockerCompose := some { service := "s" } } = none :=
  ⟨by decide,
   (liveupdate_C2_selector_validation none 7
     { discoveryName := "d" } { service := "s" }).2.1 (by decide)⟩

/-! ### Claim C3 — old-event suppression -/

/-- C3 counterexample: a file event whose time *equals* the ImageMap's
BuildStartTime is **not** skipped — its file is recorded in
`modTimeByPath` (the code skips only when `BuildStartTime.After(t)`,
i.e. strictly greater) — contradicting the claim's "≤". -/
theorem liveupdate_C3_counterexample :
    (processOneSource "im" { buildStartTime := some 5 }
      [{ time := 5, seenFiles := ["a"] }] {}).2.modTimeByPath = [("a", 5)] :=
  rfl

/-- C3 (amended): a file event whose time is *strictly less than* the
ImageMap's BuildStartTime is skipped; consuming only such events leaves
`modTimeByPath` unchanged (so they alone can never produce a sync). -/
theorem liveupdate_C3_old_event_suppression
    (b : MicroTime) (events : List FileEvent) (m : List (String × MicroTime))
    (h : ∀ e ∈ events, e.time < b) :
    consumeFileEvents (some b) events m = m := by
  induction events generalizing m with
  | nil => rfl
  | cons e es ih =>
    have he : e.time < b := h e (List.mem_cons_self e es)
    have hes : ∀ x ∈ es, x.time < b := fun x hx => h x (List.mem_cons_of_mem e hx)
    simpa [consumeFileEvents, he] using ih m hes

/-- Witness for C3 on one strictly-old event. -/
theorem liveupdate_C3_old_event_suppression_witness :
    (∀ e ∈ [({ time := 3, seenFiles := ["a"] } : FileEvent)], e.time < 5) ∧
    consumeFileEvents (some 5) [{ time := 3, seenFiles := ["a"] }] [] = [] :=
  ⟨by decide, liveupdate_C3_old_event_suppression 5 _ [] (by decide)⟩

/-! ### Claim C4 — GC watermark -/

/-- C4 counterexample: after GC with watermark 5 (the `bestStartTime`
fallback; the source has no stored image status), the entry with mod time
*equal* to the watermark survives — contradicting the claim that entries
with `modTime ≤ watermark` are dropped (the code drops only
`gcTime.After(t)`, i.e. strictly older). -/
theorem liveupdate_C4_counterexample :
    (garbageCollectFileChanges [{ fileWatch := "fw" }] 5
      [("fw", { modTimeByPath := [("f", 5)] })] []).1 =
      [("fw", { modTimeByPath := [("f", 5)] })] :=
  rfl

/-- C4 (amended): for a non-zero GC watermark, a file entry survives
`gcFileMap` (the pruning used by `garbageCollectFileChanges`) iff it was
present and its mod time is **greater than or equal to** the watermark;
equivalently exactly the entries with `modTime < watermark` are
dropped. -/
theorem liveupdate_C4_gc_watermark (gcTime : MicroTime)
    (m : List (String × MicroTime)) (ft : String × MicroTime) :
    ft ∈ gcFileMap gcTime m ↔ ft ∈ m ∧ gcTime ≤ ft.2 := by
  simp [gcFileMap, List.mem_filter, Nat.not_lt]

/-! ### Claim C8 — failure transition-time stickiness -/

/-- C8: `createFailedState` preserves `lastTransitionTime` when the
existing failure has the same reason (the message is not consulted), and
stamps the current time when the reason differs or there was no prior
failure. -/
theorem liveupdate_C8_transition_time (f : LiveUpdateStateFailed)
    (now : MicroTime) (r msg : String) :
    (f.reason = r →
      (createFailedState (some f) now r msg).lastTransitionTime =
        f.lastTransitionTime) ∧
    (f.reason ≠ r →
      (createFailedState (some f) now r msg).lastTransitionTime = now) ∧
    (createFailedState none now r msg).lastTransitionTime = now := by
  refine ⟨fun h => ?_, fun h => ?_, rfl⟩ <;> simp [createFailedState, h]

/-- Witness for C8: same reason but a *different message* keeps the old
transition time. -/
theorem liveupdate_C8_transition_time_witness :
    ({ reason := "X", message := "old", lastTransitionTime := 3 } :
      LiveUpdateStateFailed).reason = "X" ∧
    (createFailedState
      (some { reason := "X", message := "old", lastTransitionTime := 3 })
      9 "X" "new").lastTransitionTime = 3 :=
  ⟨rfl,
   (liveupdate_C8_transition_time
     { reason := "X", message := "old", lastTransitionTime := 3 } 9 "X" "new").1 rfl⟩

/-! ### Claim C5 — PodsInconsistent -/

/-- Engine lemma for C5: inside one `applyGo` run, if every container
before `cb` got success or a run-step failure, at least one of them (or
the incoming memo) was a run-step failure, and `cb` succeeds, the result
is a `PodsInconsistent` failure. -/
theorem applyGo_pods_inconsistent (update : Container → UpdateResult)
    (lfts now : MicroTime) (cb : Container) (rest : List Container)
    (pre : List Container) (lastErr : Option LiveUpdateContainerStatus)
    (acc : List LiveUpdateContainerStatus)
    (hok : ∀ c ∈ pre, update c = .success ∨ ∃ m, update c = .runStepFailure m)
    (hfail : (∃ c ∈ pre, ∃ m, update c = .runStepFailure m) ∨ lastErr.isSome)
    (hcb : update cb = .success) :
    (applyGo update lfts now (pre ++ cb :: rest) lastErr acc).failed.map
      (fun f => f.reason) = some "PodsInconsistent" := by
  induction pre generalizing lastErr acc with
  | nil =>
    rcases hfail with ⟨c, hc, _⟩ | hsome
    · exact absurd hc (List.not_mem_nil c)
    · obtain ⟨lee, hlee⟩ := Option.isSome_iff_exists.mp hsome
      subst hlee
      simp [applyGo, hcb]
  | cons c pre ih =>
    have hok2 : ∀ x ∈ pre, update x = .success ∨ ∃ m, update x = .runStepFailure m :=
      fun x hx => hok x (List.mem_cons_of_mem c hx)
    rcases hok c (List.mem_cons_self c pre) with hs | ⟨mm, hm⟩
    · cases lastErr with
      | some lee => simp [applyGo, hs]
      | none =>
        have hfail2 : ∃ x ∈ pre, ∃ m, update x = .runStepFailure m := by
          rcases hfail with ⟨x, hx, m, hxm⟩ | hsome
          · rcases List.mem_cons.mp hx with rfl | hx2
            · rw [hs] at hxm; exact absurd hxm (by simp)
            · exact ⟨x, hx2, m, hxm⟩
          · exact absurd hsome (by simp)
        simpa [applyGo, hs] using ih none _ hok2 (Or.inl hfail2)
    · simpa [applyGo, hm] using ih (some _) _ hok2 (Or.inr rfl)

/-- C5 counterexample: a reconcile pass over two selected running
containers where the updater returns RunStepFailure for the first and
success for the second does **not** set `PodsInconsistent` — the status
is unfailed, both containers were updated (the second after the first's
run-step failure), and the first's error is only recorded as
`lastExecError` — because `maybeSync` calls `applyInternal` with a
singleton container list per container, so the cross-container memo never
sees a previous failure. -/
theorem liveupdate_C5_counterexample :
    (maybeSync [{ fileWatch := "fw" }] 0 exParamsC5
      [(exPodRunning, exC1), (exPodRunning, exC2)] []).status.failed = none ∧
    (maybeSync [{ fileWatch := "fw" }] 0 exParamsC5
      [(exPodRunning, exC1), (exPodRunning, exC2)] []).trace =
      [.buildStarted ["f"], .updaterCall "c1", .updaterCall "c2",
       .buildCompleted true] ∧
    (maybeSync [{ fileWatch := "fw" }] 0 exParamsC5
      [(exPodRunning, exC1), (exPodRunning, exC2)] []).status.containers.map
        (fun c => c.lastExecError) = ["boom", ""] := by
  refine ⟨?_, ?_, ?_⟩ <;> decide

/-- C5 (amended): *within a single `applyInternal` invocation* over its
input container list, whenever a container update succeeds after a
previous container of that same invocation failed with RunStepFailure,
the returned status is failed with reason `PodsInconsistent`. -/
theorem liveupdate_C5_pods_inconsistent (update : Container → UpdateResult)
    (lfts now : MicroTime) (pre : List Container) (cb : Container)
    (rest : List Container)
    (hok : ∀ c ∈ pre, update c = .success ∨ ∃ m, update c = .runStepFailure m)
    (hfail : ∃ c ∈ pre, ∃ m, update c = .runStepFailure m)
    (hcb : update cb = .success) :
    (applyInternal (.ok ()) (.ok ()) update lfts now (pre ++ cb :: rest)).failed.map
      (fun f => f.reason) = some "PodsInconsistent" :=
  applyGo_pods_inconsistent update lfts now cb rest pre none [] hok
    (Or.inl hfail) hcb

/-- Witness for C5: two containers in one `applyInternal` call,
RunStepFailure then success, yield `PodsInconsistent`. -/
theorem liveupdate_C5_pods_inconsistent_witness :
    (∀ c ∈ [({ containerID := "c1" } : Container)],
      exParamsC5.update c = .success ∨
        ∃ m, exParamsC5.update c = .runStepFailure m) ∧
    (∃ c ∈ [({ containerID := "c1" } : Container)],
      ∃ m, exParamsC5.update c = .runStepFailure m) ∧
    exParamsC5.update { containerID := "c2" } = .success ∧
    (applyInternal (.ok ()) (.ok ()) exParamsC5.update 10 0
      [{ containerID := "c1" }, { containerID := "c2" }]).failed.map
        (fun f => f.reason) = some "PodsInconsistent" :=
  ⟨fun c hc => by
      rcases List.mem_singleton.mp hc with rfl
      exact Or.inr ⟨"boom", rfl⟩,
   ⟨{ containerID := "c1" }, List.mem_singleton_self _, "boom", rfl⟩,
   rfl,
   liveupdate_C5_pods_inconsistent exParamsC5.update 10 0
     [{ containerID := "c1" }] { containerID := "c2" } []
     (fun c hc => by
       rcases List.mem_singleton.mp hc with rfl
       exact Or.inr ⟨"boom", rfl⟩)
     ⟨{ containerID := "c1" }, List.mem_singleton_self _, "boom", rfl⟩
     rfl⟩

/-! ### Claim C6 — Terminated-only promotion -/

/-- C6 counterexample: a pass over one terminated pod plus one live
container that is merely *waiting* (so no live container was updated),
with files pending and no failure, does **not** promote to `Terminated`:
the waiting container contributed a `status.containers` entry and the
code requires `len(status.Containers) == 0`, a strictly stronger
condition than "no live container was updated". -/
theorem liveupdate_C6_counterexample :
    (maybeSync [{ fileWatch := "fw" }] 0 exParamsC6
      [(exPodSucceeded, exCTerminated), (exPodRunning, exCWaiting)] []).status.failed =
      none ∧
    (maybeSync [{ fileWatch := "fw" }] 0 exParamsC6
      [(exPodSucceeded, exCTerminated), (exPodRunning, exCWaiting)] []).trace = [] ∧
    (maybeSync [{ fileWatch := "fw" }] 0 exParamsC6
      [(exPodSucceeded, exCTerminated), (exPodRunning, exCWaiting)] []).status.containers.map
        (fun c => (c.waiting.map (fun w => w.reason), c.containerID)) =
      [(some "ContainerWaiting", "cw")] := by
  refine ⟨?_, ?_, ?_⟩ <;> decide

/-- C6 (amended): at the end of the per-container pass, if `status.failed`
is nil, at least one selected container was terminated, there were files
to sync, **and no container status entry was recorded at all**
(`status.containers` empty — i.e. every selected container was skipped as
terminated, none was updated *or marked waiting*), then `status.failed`
is set with reason `Terminated` and a message containing the first
terminated pod's name. -/
theorem liveupdate_C6_terminated_promotion
    (objF : Option LiveUpdateStateFailed) (now : MicroTime)
    (status : LiveUpdateStatus) (podName : String)
    (h1 : status.failed = none) (h2 : podName ≠ "")
    (h3 : status.containers = []) :
    ∃ f, (promoteTerminated objF now status podName true).failed = some f ∧
      f.reason = "Terminated" ∧
      ∃ s1 s2, f.message = s1 ++ podName ++ s2 := by
  refine ⟨createFailedState objF now "Terminated"
    ("Container for live update is stopped. Pod name: " ++ podName), ?_, ?_, ?_⟩
  · simp [promoteTerminated, h1, h2, h3]
  · simp [createFailedState]
  · exact ⟨"Container for live update is stopped. Pod name: ", "", by
      simp [createFailedState]⟩

/-- Witness for C6: the terminated-only pass (all selected containers
terminated, files pending) is promoted to `Terminated`. -/
theorem liveupdate_C6_terminated_promotion_witness :
    (maybeSync [{ fileWatch := "fw" }] 0 exParamsC6
      [(exPodSucceeded, exCTerminated)] []).status.failed =
      some { reason := "Terminated"
             message := "Container for live update is stopped. Pod name: pt"
             lastTransitionTime := 0 } ∧
    (∃ f, (promoteTerminated none 0
        { failed := none, containers := [] } "pt" true).failed = some f ∧
      f.reason = "Terminated" ∧ ∃ s1 s2, f.message = s1 ++ "pt" ++ s2) :=
  ⟨by decide,
   liveupdate_C6_terminated_promotion none 0
     { failed := none, containers := [] } "pt" rfl (by decide) rfl⟩

/-! ### Claim C10 — trigger-queue NotFound tolerance -/

/-- C10: a missing trigger-queue ConfigMap never fails the reconcile.
`reconcileTriggerQueue` swallows NotFound (no change, no error, snapshot
untouched); the refresh pipeline then proceeds normally with the stored
trigger queue unchanged.  In contrast, a NotFound while refreshing a
FileWatch source makes the pipeline record an `ObjectNotFound` failed
state. -/
theorem liveupdate_C10_trigger_queue_not_found
    (specSources : List LiveUpdateSource) (selector : LiveUpdateSelector)
    (objF : Option LiveUpdateStateFailed) (now : MicroTime)
    (getFW gFW : String → Except GetError FileWatch)
    (getIM : String → Except GetError ImageMap)
    (getKA : String → Except GetError KubernetesApplyStatus)
    (getKD : String → Except GetError KubernetesDiscovery)
    (getDC : String → Except GetError DockerComposeService)
    (msg : String) (m : Monitor) (s0 : LiveUpdateSource)
    (chS chK chD : Bool) (srcs : List (String × MonitorSource)) (mK mD : Monitor)
    (h1 : reconcileSources specSources getFW getIM m.sources = .ok (chS, srcs))
    (h2 : reconcileKubernetesResource selector.kubernetes getKA getKD getIM
      { m with sources := srcs } = .ok (chK, mK))
    (h3 : reconcileDockerComposeService selector.dockerCompose getDC mK =
      .ok (chD, mD))
    (hne : s0.fileWatch ≠ "")
    (hg : gFW s0.fileWatch = .error (.notFound msg)) :
    reconcileTriggerQueue (.error (.notFound msg)) m.lastTriggerQueue =
      .ok (false, m.lastTriggerQueue) ∧
    (∃ m2, reconcileRefresh specSources selector objF now getFW getIM getKA getKD
        getDC (.error (.notFound msg)) m = .inr m2 ∧
      m2.lastTriggerQueue = mD.lastTriggerQueue) ∧
    reconcileRefresh [s0] selector objF now gFW getIM getKA getKD getDC
      (.error (.notFound msg)) m =
      .inl (.failure (createFailedState objF now "ObjectNotFound" msg)) := by
  refine ⟨rfl, ?_, ?_⟩
  · refine ⟨{ mD with hasChangesToSync :=
      mD.hasChangesToSync || chS || chK || chD || false }, ?_, rfl⟩
    simp only [reconcileRefresh, h1, h2, h3, reconcileTriggerQueue]
  · simp only [reconcileRefresh, reconcileSources, reconcileOneSource, hne, hg,
      ne_eq, not_false_eq_true, if_true, ite_not]

/-- Witness for C10 at a trivial monitor and empty source list. -/
theorem liveupdate_C10_trigger_queue_not_found_witness :
    reconcileSources [] (fun _ => .ok {}) (fun _ => .ok {})
      (Monitor.sources {}) = .ok (false, []) ∧
    reconcileKubernetesResource (LiveUpdateSelector.kubernetes {})
      (fun _ => .ok {}) (fun _ => .ok {}) (fun _ => .ok {})
      { ({} : Monitor) with sources := [] } = .ok (false, {}) ∧
    reconcileDockerComposeService (LiveUpdateSelector.dockerCompose {})
      (fun _ => .ok {}) {} = .ok (false, {}) ∧
    ({ fileWatch := "fw" } : LiveUpdateSource).fileWatch ≠ "" ∧
    (fun (_ : String) => (.error (.notFound "nf") : Except GetError FileWatch)) "fw" =
      .error (.notFound "nf") ∧
    (reconcileTriggerQueue (.error (.notFound "nf")) (Monitor.lastTriggerQueue {}) =
      .ok (false, Monitor.lastTriggerQueue {}) ∧
    (∃ m2, reconcileRefresh [] {} none 5 (fun _ => .ok {}) (fun _ => .ok {})
        (fun _ => .ok {}) (fun _ => .ok {}) (fun _ => .ok {})
        (.error (.notFound "nf")) {} = .inr m2 ∧
      m2.lastTriggerQueue = Monitor.lastTriggerQueue {}) ∧
    reconcileRefresh [{ fileWatch := "fw" }] {} none 5
      (fun _ => .error (.notFound "nf")) (fun _ => .ok {}) (fun _ => .ok {})
      (fun _ => .ok {}) (fun _ => .ok {}) (.error (.notFound "nf")) {} =
      .inl (.failure (createFailedState none 5 "ObjectNotFound" "nf"))) :=
  ⟨rfl, rfl, rfl, by decide, rfl,
   liveupdate_C10_trigger_queue_not_found [] {} none 5 (fun _ => .ok {})
     (fun _ => .error (.notFound "nf")) (fun _ => .ok {}) (fun _ => .ok {})
     (fun _ => .ok {}) (fun _ => .ok {}) "nf" {} { fileWatch := "fw" }
     false false false [] {} {} rfl rfl rfl (by decide) rfl⟩

/-! ### Claim C7 — replay idempotence -/

/-- Consuming a source whose newest event and image status are already the
stored snapshots reports no change and leaves the source untouched. -/
theorem processOneSource_replayed (imn : String) (imStatus : ImageMapStatus)
    (events : List FileEvent) (ms : MonitorSource)
    (hfe : ms.lastFileEvent = some (events.getLastD default))
    (him : imn ≠ "" → ms.lastImageStatus = some imStatus) :
    processOneSource imn imStatus events ms = (false, ms) := by
  obtain ⟨mtbp, lfe, lis⟩ := ms
  by_cases h : imn = ""
  · subst h
    simp only at hfe
    simp [processOneSource, hfe]
  · have him2 := him h
    simp only at hfe him2
    simp [processOneSource, h, hfe, him2]

/-- `reconcileOneSource` on replayed inputs: no change, same sources. -/
theorem reconcileOneSource_replayed (s : LiveUpdateSource)
    (getFW : String → Except GetError FileWatch)
    (getIM : String → Except GetError ImageMap)
    (sources : List (String × MonitorSource))
    (h : sourceReplayed getFW getIM sources s) :
    reconcileOneSource s getFW getIM sources = .ok (false, sources) := by
  unfold sourceReplayed at h
  by_cases hfw : s.fileWatch = ""
  · rw [if_pos hfw] at h
    by_cases him : s.imageMap = ""
    · simp [reconcileOneSource, hfw, him]
    · obtain ⟨im, himok⟩ := h him
      simp [reconcileOneSource, hfw, him, himok]
  · rw [if_neg hfw] at h
    obtain ⟨fw, hfwok, im, himok, himempty, hevents⟩ := h
    by_cases hev : fw.fileEvents = []
    · by_cases him : s.imageMap = ""
      · simp [reconcileOneSource, hfw, him, hfwok, hev]
      · simp [reconcileOneSource, hfw, him, hfwok, himok him, hev]
    · obtain ⟨ms, hlook, hlast, himst⟩ := hevents hev
      by_cases him : s.imageMap = ""
      · have hproc := processOneSource_replayed s.imageMap ({} : ImageMapStatus)
          fw.fileEvents ms hlast (fun hc => absurd him (by simpa using hc))
        simp only [him] at hproc
        have hins := alistInsert_self sources s.fileWatch ms hlook
        simp [reconcileOneSource, hfw, him, hfwok, hev, hlook, hproc, hins]
      · have hproc := processOneSource_replayed s.imageMap im.status
          fw.fileEvents ms hlast (fun _ => himst him)
        have hins := alistInsert_self sources s.fileWatch ms hlook
        simp [reconcileOneSource, hfw, him, hfwok, himok him, hev, hlook, hproc, hins]

/-- `reconcileSources` on replayed inputs: no change, same sources. -/
theorem reconcileSources_replayed (specSources : List LiveUpdateSource)
    (getFW : String → Except GetError FileWatch)
    (getIM : String → Except GetError ImageMap)
    (sources : List (String × MonitorSource))
    (h : ∀ s ∈ specSources, sourceReplayed getFW getIM sources s) :
    reconcileSources specSources getFW getIM sources = .ok (false, sources) := by
  induction specSources with
  | nil => rfl
  | cons s rest ih =>
    have h1 := reconcileOneSource_replayed s getFW getIM sources
      (h s (List.mem_cons_self s rest))
    have h2 := ih (fun x hx => h x (List.mem_cons_of_mem s hx))
    simp [reconcileSources, h1, h2]

/-- `reconcileKubernetesResource` on replayed inputs: no change, same
monitor. -/
theorem reconcileKubernetesResource_replayed (sel : Option KubernetesSelector)
    (getKA : String → Except GetError KubernetesApplyStatus)
    (getKD : String → Except GetError KubernetesDiscovery)
    (getIM : String → Except GetError ImageMap) (m : Monitor)
    (h : kubernetesReplayed getKA getKD getIM sel m) :
    reconcileKubernetesResource sel getKA getKD getIM m = .ok (false, m) := by
  cases sel with
  | none => rfl
  | some sel =>
    obtain ⟨kd, hkd, hstore, hka, hkanone, him, himnone⟩ := h
    obtain ⟨msrc, mka, mkd, mim, mdc, mtq, mc, mflag⟩ := m
    simp only at hstore hka hkanone him himnone
    by_cases ha : sel.applyName = ""
    · by_cases hi : sel.imageMapName = ""
      · simp [reconcileKubernetesResource, ha, hi, hkd, hstore, hkanone ha,
          himnone hi]
      · obtain ⟨imv, himok, himst⟩ := him hi
        simp [reconcileKubernetesResource, ha, hi, hkd, hstore, hkanone ha,
          himok, himst]
    · obtain ⟨kav, hkaok, hkast⟩ := hka ha
      by_cases hi : sel.imageMapName = ""
      · simp [reconcileKubernetesResource, ha, hi, hkd, hstore, hkaok, hkast,
          himnone hi]
      · obtain ⟨imv, himok, himst⟩ := him hi
        simp [reconcileKubernetesResource, ha, hi, hkd, hstore, hkaok, hkast,
          himok, himst]

/-- `reconcileDockerComposeService` on replayed inputs: no change, same
monitor. -/
theorem reconcileDockerComposeService_replayed (sel : Option DockerComposeSelector)
    (getDC : String → Except GetError DockerComposeService) (m : Monitor)
    (h : dockerComposeReplayed getDC sel m) :
    reconcileDockerComposeService sel getDC m = .ok (false, m) := by
  cases sel with
  | none => rfl
  | some sel =>
    obtain ⟨dcs, hok, hstore⟩ := h
    obtain ⟨msrc, mka, mkd, mim, mdc, mtq, mc, mflag⟩ := m
    simp only at hstore
    simp [reconcileDockerComposeService, hok, hstore]

/-- `reconcileTriggerQueue` on replayed inputs: no change, same
snapshot. -/
theorem reconcileTriggerQueue_replayed (getTQ : Except GetError ConfigMap)
    (lastTQ : Option ConfigMap) (h : triggerQueueReplayed getTQ lastTQ) :
    reconcileTriggerQueue getTQ lastTQ = .ok (false, lastTQ) := by
  obtain ⟨q, hq, last, hlast, hdata⟩ := h
  subst hq
  subst hlast
  simp [reconcileTriggerQueue, hdata]

/-- C7: a reconcile in which every watched object is deep-equal to what
the monitor already recorded (and the previous pass cleared
`hasChangesToSync`) performs no sync at all: no build events, no
container-updater calls, no status computation, and the monitor is
returned exactly unchanged. -/
theorem liveupdate_C7_replay_idempotent (specSources : List LiveUpdateSource)
    (selector : LiveUpdateSelector) (objF : Option LiveUpdateStateFailed)
    (now startedTime : MicroTime) (isWaitingOnTrigger : Bool)
    (planner : List String → Except String LiveUpdatePlan)
    (boilRuns mapLocalPaths : Except String Unit)
    (update : Container → UpdateResult)
    (getFW : String → Except GetError FileWatch)
    (getIM : String → Except GetError ImageMap)
    (getKA : String → Except GetError KubernetesApplyStatus)
    (getKD : String → Except GetError KubernetesDiscovery)
    (getDC : String → Except GetError DockerComposeService)
    (getTQ : Except GetError ConfigMap)
    (bestStartTime : MicroTime) (selected : List (Pod × KContainer))
    (m : Monitor)
    (hvalid : ensureSelectorValid objF now selector = none)
    (hflag : m.hasChangesToSync = false)
    (hs : ∀ s ∈ specSources, sourceReplayed getFW getIM m.sources s)
    (hk : kubernetesReplayed getKA getKD getIM selector.kubernetes m)
    (hd : dockerComposeReplayed getDC selector.dockerCompose m)
    (ht : triggerQueueReplayed getTQ m.lastTriggerQueue) :
    reconcileCore specSources selector objF now startedTime isWaitingOnTrigger
      planner boilRuns mapLocalPaths update getFW getIM getKA getKD getDC getTQ
      bestStartTime selected m = .done m none [] := by
  have h1 := reconcileSources_replayed specSources getFW getIM m.sources hs
  have h2 := reconcileKubernetesResource_replayed selector.kubernetes
    getKA getKD getIM m hk
  have h3 := reconcileDockerComposeService_replayed selector.dockerCompose
    getDC m hd
  have h4 := reconcileTriggerQueue_replayed getTQ m.lastTriggerQueue ht
  have hm : ({ m with hasChangesToSync := false } : Monitor) = m := by
    obtain ⟨msrc, mka, mkd, mim, mdc, mtq, mc, mflag⟩ := m
    simp only at hflag
    rw [hflag]
  unfold reconcileCore reconcileRefresh
  simp only [hvalid, h1, h2, h3, h4, hflag, hm, Bool.false_or, Bool.or_false]
  simp

/-- Witness for C7: a second reconcile of the concrete replay scenario
leaves the monitor unchanged and performs no sync. -/
theorem liveupdate_C7_replay_idempotent_witness :
    ensureSelectorValid none 9 exReplaySelector = none ∧
    exReplayMonitor.hasChangesToSync = false ∧
    (∀ s ∈ [exReplaySource],
      sourceReplayed exReplayGetFW exReplayGetIM exReplayMonitor.sources s) ∧
    kubernetesReplayed (fun _ => .ok {}) (fun _ => .ok {}) exReplayGetIM
      exReplaySelector.kubernetes exReplayMonitor ∧
    dockerComposeReplayed (fun _ => .ok {}) exReplaySelector.dockerCompose
      exReplayMonitor ∧
    triggerQueueReplayed exReplayGetTQ exReplayMonitor.lastTriggerQueue ∧
    reconcileCore [exReplaySource] exReplaySelector none 9 1 false exPlanAll
      (.ok ()) (.ok ()) (fun _ => .success) exReplayGetFW exReplayGetIM
      (fun _ => .ok {}) (fun _ => .ok {}) (fun _ => .ok {}) exReplayGetTQ
      0 [] exReplayMonitor = .done exReplayMonitor none [] := by
  have hvalid : ensureSelectorValid none 9 exReplaySelector = none := by decide
  have hflag : exReplayMonitor.hasChangesToSync = false := rfl
  have hs : ∀ s ∈ [exReplaySource],
      sourceReplayed exReplayGetFW exReplayGetIM exReplayMonitor.sources s := by
    intro s hsm
    rcases List.mem_singleton.mp hsm with rfl
    unfold sourceReplayed
    rw [if_neg (by decide : ¬(exReplaySource.fileWatch = ""))]
    exact ⟨{ fileEvents := [exReplayFE] }, rfl, { status := exReplayIMS },
      fun _ => rfl, fun hc => absurd hc (by decide),
      fun _ => ⟨exReplayMS, rfl, rfl, fun _ => rfl⟩⟩
  have hk : kubernetesReplayed (fun _ => .ok {}) (fun _ => .ok {})
      exReplayGetIM exReplaySelector.kubernetes exReplayMonitor :=
    ⟨{}, rfl, rfl, fun hc => absurd rfl hc, fun _ => rfl,
     fun hc => absurd rfl hc, fun _ => rfl⟩
  have hd : dockerComposeReplayed (fun _ => .ok {})
      exReplaySelector.dockerCompose exReplayMonitor := trivial
  have ht : triggerQueueReplayed exReplayGetTQ exReplayMonitor.lastTriggerQueue :=
    ⟨{ data := [("mn", "1")] }, rfl, { data := [("mn", "1")] }, rfl, rfl⟩
  exact ⟨hvalid, hflag, hs, hk, hd, ht,
    liveupdate_C7_replay_idempotent [exReplaySource] exReplaySelector none 9 1
      false exPlanAll (.ok ()) (.ok ()) (fun _ => .success) exReplayGetFW
      exReplayGetIM (fun _ => .ok {}) (fun _ => .ok {}) (fun _ => .ok {})
      exReplayGetTQ 0 [] exReplayMonitor hvalid hflag hs hk hd ht⟩

/-! ### Claim C1 — monotonic watermark -/

/-- One collect step never lowers the running high-water mark. -/
theorem collectStep_high_le (hwm : MicroTime)
    (acc : List String × MicroTime × MicroTime) (ft : String × MicroTime) :
    acc.2.2 ≤ (collectStep hwm acc ft).2.2 := by
  obtain ⟨files, low, high⟩ := acc
  simp only [collectStep]
  split
  · by_cases h : high < ft.2
    · simpa [h] using Nat.le_of_lt h
    · simp [h]
  · exact Nat.le_refl _

/-- Folding collect steps over one source never lowers the mark. -/
theorem foldl_collectStep_high_le (hwm : MicroTime)
    (l : List (String × MicroTime)) (acc : List String × MicroTime × MicroTime) :
    acc.2.2 ≤ (l.foldl (collectStep hwm) acc).2.2 := by
  induction l generalizing acc with
  | nil => exact Nat.le_refl _
  | cons x xs ih => exact Nat.le_trans (collectStep_high_le hwm acc x) (ih _)

/-- The new high-water mark computed by the changed-file scan is at least
the watermark it started from. -/
theorem collectFilesChanged_high_ge (sources : List (String × MonitorSource))
    (hwm : MicroTime) : hwm ≤ (collectFilesChanged sources hwm).2.2 := by
  suffices h : ∀ acc : List String × MicroTime × MicroTime,
      acc.2.2 ≤ (sources.foldl
        (fun acc s => s.2.modTimeByPath.foldl (collectStep hwm) acc) acc).2.2 by
    exact h ([], 0, hwm)
  intro acc
  induction sources generalizing acc with
  | nil => exact Nat.le_refl _
  | cons s ss ih =>
    exact Nat.le_trans (foldl_collectStep_high_le hwm s.2.modTimeByPath acc) (ih _)

/-- C1: whenever a container visit applies files (the trace grew) and the
apply does not fail (the visit did not stop the pass with a failure), the
container's stored `lastFileTimeSynced` is set to the new high-water mark
computed by the changed-file scan, which is at least the previous
watermark (the stored non-zero `lastFileTimeSynced`, or the reconciler's
process-start time for a container never synced before) — so the
watermark is monotonically non-decreasing under successful syncs. -/
theorem liveupdate_C1_watermark_monotonic (p : SyncParams) (st : SyncState)
    (pod : Pod) (cInfo : KContainer)
    (hnofail : (visitOne p st pod cInfo).stopped = false)
    (happlied : (visitOne p st pod cInfo).trace ≠ st.trace) :
    ∃ cs, ckeyLookup (visitOne p st pod cInfo).containers
        { containerID := cInfo.id, podName := pod.name, ns := pod.ns } = some cs ∧
      cs.lastFileTimeSynced =
        (collectFilesChanged p.sources
          (containerHighWaterMark p.startedTime st.containers
            { containerID := cInfo.id, podName := pod.name, ns := pod.ns })).2.2 ∧
      containerHighWaterMark p.startedTime st.containers
          { containerID := cInfo.id, podName := pod.name, ns := pod.ns } ≤
        cs.lastFileTimeSynced := by
  by_cases hterm : pod.phase = "Succeeded" ∨ pod.phase = "Failed" ∨
      cInfo.state.terminated = true
  · exact absurd (by simp [visitOne, hterm]) happlied
  · have hwm := collectFilesChanged_high_ge p.sources
      (containerHighWaterMark p.startedTime st.containers ⟨cInfo.id, pod.name, pod.ns⟩)
    rcases hpl : (createLiveUpdatePlan (p.planner (dedupedAndSorted (collectFilesChanged p.sources (containerHighWaterMark p.startedTime st.containers ⟨cInfo.id, pod.name, pod.ns⟩)).1))).2 with _ | f
    · by_cases hempty : (createLiveUpdatePlan (p.planner (dedupedAndSorted (collectFilesChanged p.sources (containerHighWaterMark p.startedTime st.containers ⟨cInfo.id, pod.name, pod.ns⟩)).1))).1.syncPaths = []
      · exact absurd (by simp [visitOne, hterm, hpl, hempty,
          adjustFailedStateTimestamps]) happlied
      · by_cases hcrash : cInfo.state.waitingReason = some "CrashLoopBackOff"
        · simp [visitOne, hterm, hpl, hempty, hcrash,
            adjustFailedStateTimestamps] at hnofail
        · by_cases hwait : cInfo.state.running = false ∨ cInfo.id = ""
          · exact absurd (by simp [visitOne, hterm, hpl, hempty, hcrash, hwait,
              adjustFailedStateTimestamps]) happlied
          · by_cases htrig : p.isWaitingOnTrigger = true
            · exact absurd (by simp [visitOne, hterm, hpl, hempty, hcrash,
                hwait, htrig, adjustFailedStateTimestamps]) happlied
            · rcases hap : (applyInternal p.boilRuns p.mapLocalPaths p.update (collectFilesChanged p.sources (containerHighWaterMark p.startedTime st.containers ⟨cInfo.id, pod.name, pod.ns⟩)).2.2 p.now [⟨cInfo.id, cInfo.name, pod.name, pod.ns⟩]).failed with _ | f2
              · refine ⟨{ (ckeyLookup st.containers ⟨cInfo.id, pod.name, pod.ns⟩).getD {} with lastFileTimeSynced := (collectFilesChanged p.sources (containerHighWaterMark p.startedTime st.containers ⟨cInfo.id, pod.name, pod.ns⟩)).2.2 }, ?_, rfl, hwm⟩
                simp [visitOne, hterm, hpl, hempty, hcrash, hwait, htrig,
                  adjustFailedStateTimestamps, hap, ckeyLookup_insert_self]
              · simp [visitOne, hterm, hpl, hempty, hcrash, hwait, htrig,
                  adjustFailedStateTimestamps, hap] at hnofail
    · simp [visitOne, hterm, hpl, adjustFailedStateTimestamps] at hnofail

/-- Witness for C1: the successful single-container pass of the concrete
scenario advances the stored watermark from the process-start time 1 to
the changed file's mod time 10. -/
theorem liveupdate_C1_watermark_monotonic_witness :
    (visitOne exParamsC6 {} exPodRunning exC1).stopped = false ∧
    (visitOne exParamsC6 {} exPodRunning exC1).trace ≠ [] ∧
    (∃ cs, ckeyLookup (visitOne exParamsC6 {} exPodRunning exC1).containers
        { containerID := "c1", podName := "p", ns := "default" } = some cs ∧
      cs.lastFileTimeSynced =
        (collectFilesChanged exParamsC6.sources
          (containerHighWaterMark exParamsC6.startedTime []
            { containerID := "c1", podName := "p", ns := "default" })).2.2 ∧
      containerHighWaterMark exParamsC6.startedTime []
          { containerID := "c1", podName := "p", ns := "default" } ≤
        cs.lastFileTimeSynced) :=
  ⟨by decide, by decide,
   liveupdate_C1_watermark_monotonic exParamsC6 {} exPodRunning exC1
     (by decide) (by decide)⟩

/-! ### Claim C9 — build-event ordering -/

/-- One container visit either leaves the trace alone, appends one updater
call (BuildStarted already dispatched), or appends BuildStarted followed
by one updater call (first dispatch of the pass). -/
theorem visitOne_trace_shape (p : SyncParams) (st : SyncState)
    (pod : Pod) (cInfo : KContainer) :
    ((visitOne p st pod cInfo).updateEventDispatched = st.updateEventDispatched ∧
      (visitOne p st pod cInfo).trace = st.trace) ∨
    (st.updateEventDispatched = true ∧
      (visitOne p st pod cInfo).updateEventDispatched = true ∧
      ∃ i, (visitOne p st pod cInfo).trace =
        st.trace ++ [BuildEvent.updaterCall i]) ∨
    (st.updateEventDispatched = false ∧
      (visitOne p st pod cInfo).updateEventDispatched = true ∧
      ∃ fs i, (visitOne p st pod cInfo).trace =
        st.trace ++ [BuildEvent.buildStarted fs, BuildEvent.updaterCall i]) := by
  by_cases hterm : pod.phase = "Succeeded" ∨ pod.phase = "Failed" ∨
      cInfo.state.terminated = true
  · left; constructor <;> simp [visitOne, hterm]
  · rcases hpl : (createLiveUpdatePlan (p.planner (dedupedAndSorted (collectFilesChanged p.sources (containerHighWaterMark p.startedTime st.containers ⟨cInfo.id, pod.name, pod.ns⟩)).1))).2 with _ | f
    · by_cases hempty : (createLiveUpdatePlan (p.planner (dedupedAndSorted (collectFilesChanged p.sources (containerHighWaterMark p.startedTime st.containers ⟨cInfo.id, pod.name, pod.ns⟩)).1))).1.syncPaths = []
      · left
        constructor <;> simp [visitOne, hterm, hpl, hempty, adjustFailedStateTimestamps]
      · by_cases hcrash : cInfo.state.waitingReason = some "CrashLoopBackOff"
        · left
          constructor <;>
            simp [visitOne, hterm, hpl, hempty, hcrash, adjustFailedStateTimestamps]
        · by_cases hwait : cInfo.state.running = false ∨ cInfo.id = ""
          · left
            constructor <;> simp [visitOne, hterm, hpl, hempty, hcrash, hwait,
              adjustFailedStateTimestamps]
          · by_cases htrig : p.isWaitingOnTrigger = true
            · left
              constructor <;> simp [visitOne, hterm, hpl, hempty, hcrash, hwait,
                htrig, adjustFailedStateTimestamps]
            · have hd2 : (visitOne p st pod cInfo).updateEventDispatched = true ∧
                  (visitOne p st pod cInfo).trace = st.trace ++
                    ((if st.updateEventDispatched = true then [] else
                      [BuildEvent.buildStarted (dedupedAndSorted (collectFilesChanged p.sources (containerHighWaterMark p.startedTime st.containers ⟨cInfo.id, pod.name, pod.ns⟩)).1)]) ++
                     [BuildEvent.updaterCall cInfo.id]) := by
                rcases hap : (applyInternal p.boilRuns p.mapLocalPaths p.update (collectFilesChanged p.sources (containerHighWaterMark p.startedTime st.containers ⟨cInfo.id, pod.name, pod.ns⟩)).2.2 p.now [⟨cInfo.id, cInfo.name, pod.name, pod.ns⟩]).failed with _ | f2 <;>
                  constructor <;>
                    simp [visitOne, hterm, hpl, hempty, hcrash, hwait, htrig,
                      adjustFailedStateTimestamps, hap]
              by_cases hd : st.updateEventDispatched = true
              · right; left
                exact ⟨hd, hd2.1, cInfo.id, by simpa [hd] using hd2.2⟩
              · right; right
                refine ⟨by simpa using hd, hd2.1,
                  dedupedAndSorted (collectFilesChanged p.sources (containerHighWaterMark p.startedTime st.containers ⟨cInfo.id, pod.name, pod.ns⟩)).1,
                  cInfo.id, ?_⟩
                simpa [hd] using hd2.2
    · left
      constructor <;> simp [visitOne, hterm, hpl, adjustFailedStateTimestamps]

/-- The container-pass loop preserves the trace shape. -/
theorem syncLoop_trace_shape (p : SyncParams) (l : List (Pod × KContainer))
    (st : SyncState) (h : traceShape st.updateEventDispatched st.trace) :
    traceShape (syncLoop p l st).updateEventDispatched (syncLoop p l st).trace := by
  induction l generalizing st with
  | nil => exact h
  | cons pc rest ih =>
    obtain ⟨pod, c⟩ := pc
    have hstep : traceShape (visitOne p st pod c).updateEventDispatched
        (visitOne p st pod c).trace := by
      rcases visitOne_trace_shape p st pod c with ⟨h1, h2⟩ | ⟨h1, h2, i, h3⟩ |
          ⟨h1, h2, fs, i, h3⟩
      · rw [h1, h2]; exact h
      · rw [h1] at h
        rw [h2, h3]
        obtain ⟨fs, calls, heq, hall⟩ := h
        refine ⟨fs, calls ++ [.updaterCall i], by simp [heq], ?_⟩
        intro x hx
        rcases List.mem_append.mp hx with hx1 | hx2
        · exact hall x hx1
        · rcases List.mem_singleton.mp hx2 with rfl
          rfl
      · rw [h1] at h
        rw [h2, h3, h]
        exact ⟨fs, [.updaterCall i], rfl, by intro x hx; rcases List.mem_singleton.mp hx with rfl; rfl⟩
    by_cases hstop : (visitOne p st pod c).stopped = true
    · simpa [syncLoop, hstop] using hstep
    · have : syncLoop p ((pod, c) :: rest) st = syncLoop p rest (visitOne p st pod c) := by
        simp [syncLoop, hstop]
      rw [this]
      exact ih _ hstep

/-- Prefix of updater calls inside the tail of a shaped trace: any
decomposition of `calls ++ [e]` at an updater call has only updater calls
before it. -/
theorem calls_decomposition (calls : List BuildEvent)
    (hall : ∀ x ∈ calls, x.isCall = true) (e : BuildEvent)
    (l r : List BuildEvent) (c : String)
    (heq : calls ++ [e] = l ++ BuildEvent.updaterCall c :: r) :
    ∀ x ∈ l, x.isCall = true := by
  induction calls generalizing l with
  | nil =>
    cases l with
    | nil => intro x hx; exact absurd hx (List.not_mem_nil x)
    | cons y l2 =>
      exfalso
      have := congrArg List.length heq
      simp [List.length_append] at this
  | cons c0 calls ih =>
    cases l with
    | nil => intro x hx; exact absurd hx (List.not_mem_nil x)
    | cons y l2 =>
      simp only [List.cons_append, List.cons.injEq] at heq
      intro x hx
      rcases List.mem_cons.mp hx with rfl | hx2
      · rw [← heq.1]; exact hall c0 (List.mem_cons_self c0 calls)
      · exact ih (fun z hz => hall z (List.mem_cons_of_mem c0 hz)) l2 heq.2 x hx2

/-- C9: in every reconcile pass, BuildStarted is dispatched at most once;
every updater call is preceded by exactly one BuildStarted and by no
BuildCompleted (so BuildStarted comes before the first update and
BuildCompleted after all updates); and BuildCompleted appears iff a
BuildStarted was dispatched in that pass. -/
theorem liveupdate_C9_build_event_ordering (specSources : List LiveUpdateSource)
    (bestStartTime : MicroTime) (p : SyncParams)
    (selected : List (Pod × KContainer))
    (monitorContainers : List (MonitorContainerKey × MonitorContainerStatus)) :
    ((maybeSync specSources bestStartTime p selected monitorContainers).trace.countP
        (fun e => e.isStarted) ≤ 1) ∧
    (∀ l c r, (maybeSync specSources bestStartTime p selected
        monitorContainers).trace = l ++ BuildEvent.updaterCall c :: r →
      l.countP (fun e => e.isStarted) = 1 ∧
        l.countP (fun e => e.isCompleted) = 0) ∧
    ((∃ e, BuildEvent.buildCompleted e ∈
        (maybeSync specSources bestStartTime p selected monitorContainers).trace) ↔
      (∃ fs, BuildEvent.buildStarted fs ∈
        (maybeSync specSources bestStartTime p selected monitorContainers).trace)) := by
  have hfin : ∀ st : SyncState,
      traceShape st.updateEventDispatched st.trace →
      (maybeSyncFinish p.objStatusFailed p.now st).2 = [] ∨
      ∃ fs calls e, (maybeSyncFinish p.objStatusFailed p.now st).2 =
          BuildEvent.buildStarted fs :: (calls ++ [BuildEvent.buildCompleted e]) ∧
        ∀ x ∈ calls, x.isCall = true := by
    intro st h
    cases hd : st.updateEventDispatched with
    | false =>
      rw [hd] at h
      simp only [traceShape] at h
      left
      simp [maybeSyncFinish, hd, h]
    | true =>
      rw [hd] at h
      obtain ⟨fs, calls, heq, hall⟩ := h
      right
      refine ⟨fs, calls,
        completeBuildHasError (promoteTerminated p.objStatusFailed p.now st.status
          st.terminatedContainerPodName st.hasAnyFilesToSync), ?_, hall⟩
      simp [maybeSyncFinish, hd, heq]
  have hshape : (maybeSync specSources bestStartTime p selected
      monitorContainers).trace = [] ∨
      ∃ fs calls e, (maybeSync specSources bestStartTime p selected
        monitorContainers).trace =
          BuildEvent.buildStarted fs :: (calls ++ [BuildEvent.buildCompleted e]) ∧
        ∀ x ∈ calls, x.isCall = true := by
    rcases hchk : checkUnrecoverable p.objStatusFailed p.now
        (garbageCollectMonitorContainers ((selected.map (fun pc => pc.2.id)).filter
          (fun i => i ≠ ""))
          (garbageCollectFileChanges specSources bestStartTime p.sources
            monitorContainers).2) selected with _ | f
    · have hms : (maybeSync specSources bestStartTime p selected
          monitorContainers).trace =
          (maybeSyncFinish p.objStatusFailed p.now
            (syncLoop { p with sources := (garbageCollectFileChanges specSources bestStartTime p.sources monitorContainers).1 }
              selected
              { containers := garbageCollectMonitorContainers ((selected.map (fun pc => pc.2.id)).filter (fun i => i ≠ "")) (garbageCollectFileChanges specSources bestStartTime p.sources monitorContainers).2 })).2 := by
        simp only [maybeSync]
        rw [hchk]
      rw [hms]
      exact hfin _ (syncLoop_trace_shape _ _ _ rfl)
    · left
      simp only [maybeSync]
      rw [hchk]
  rcases hshape with h | ⟨fs, calls, e, h, hall⟩
  · rw [h]
    refine ⟨by simp, fun l c r hlr => ?_, by simp⟩
    exact absurd hlr.symm (by simp)
  · have hns : ∀ x : BuildEvent, x.isCall = true → x.isStarted = false := by
      intro x hx
      cases x <;> simp_all [BuildEvent.isCall, BuildEvent.isStarted]
    have hnc : ∀ x : BuildEvent, x.isCall = true → x.isCompleted = false := by
      intro x hx
      cases x <;> simp_all [BuildEvent.isCall, BuildEvent.isCompleted]
    have hcallsStarted : List.countP (fun x : BuildEvent => x.isStarted) calls = 0 :=
      List.countP_eq_zero.mpr (fun x hx => by simp [hns x (hall x hx)])
    have hcallsCompleted : List.countP (fun x : BuildEvent => x.isCompleted) calls = 0 :=
      List.countP_eq_zero.mpr (fun x hx => by simp [hnc x (hall x hx)])
    rw [h]
    refine ⟨?_, fun l c r hlr => ?_, ?_⟩
    · have hs2 : (BuildEvent.buildCompleted e).isStarted = false := rfl
      rw [List.countP_cons, List.countP_append, hcallsStarted]
      simp [hs2, BuildEvent.isStarted]
    · cases l with
      | nil => simp at hlr
      | cons y l2 =>
        injection hlr with h1 h2
        subst h1
        have hl2 : ∀ x ∈ l2, x.isCall = true :=
          calls_decomposition calls hall (BuildEvent.buildCompleted e) l2 r c h2
        have hl2s : List.countP (fun x : BuildEvent => x.isStarted) l2 = 0 :=
          List.countP_eq_zero.mpr (fun x hx => by simp [hns x (hl2 x hx)])
        have hl2c : List.countP (fun x : BuildEvent => x.isCompleted) l2 = 0 :=
          List.countP_eq_zero.mpr (fun x hx => by simp [hnc x (hl2 x hx)])
        constructor
        · rw [List.countP_cons, hl2s]
          rfl
        · rw [List.countP_cons, hl2c]
          rfl
    · constructor
      · intro _
        exact ⟨fs, List.mem_cons_self _ _⟩
      · intro _
        exact ⟨e, by simp⟩

/-- Witness for C9: in the concrete two-container pass, the decomposition
at the first updater call has exactly one BuildStarted and no
BuildCompleted before it. -/
theorem liveupdate_C9_build_event_ordering_witness :
    ((maybeSync [{ fileWatch := "fw" }] 0 exParamsC5
      [(exPodRunning, exC1), (exPodRunning, exC2)] []).trace =
      [BuildEvent.buildStarted ["f"], BuildEvent.updaterCall "c1",
       BuildEvent.updaterCall "c2", BuildEvent.buildCompleted true]) ∧
    ([BuildEvent.buildStarted ["f"]].countP (fun e => e.isStarted) = 1 ∧
     [BuildEvent.buildStarted ["f"]].countP (fun e => e.isCompleted) = 0) :=
  ⟨by decide,
   (liveupdate_C9_build_event_ordering [{ fileWatch := "fw" }] 0 exParamsC5
     [(exPodRunning, exC1), (exPodRunning, exC2)] []).2.1
     [BuildEvent.buildStarted ["f"]] "c1"
     [BuildEvent.updaterCall "c2", BuildEvent.buildCompleted true] (by decide)⟩

end LiveUpdateModel
